import Mathlib

/-
A verification model of the sheet-backed data layer of a tutor management
application (src/app.py).  The development translates cell values, record
rows, DataFrame-style tables, the positional worksheet grid, the date
parser, the read-side reconciliation operations (tutor authentication,
class listing, student plans) and the write-side mutation operations
(memo saving, topic completion), and proves theorems about them.
-/

set_option autoImplicit false

namespace TutorApp

universe u

variable {α : Type u} {β : Type u}

/-- Whitespace characters stripped by Python str.strip(). -/
def isPySpace (c : Char) : Bool :=
  c = ' ' || c = '\t' || c = '\n' || c = '\r' || c = '\x0b' || c = '\x0c'

/-- Characters of a string with leading and trailing whitespace removed. -/
def trimChars (l : List Char) : List Char :=
  ((l.dropWhile isPySpace).reverse.dropWhile isPySpace).reverse

/-- Python str.strip(): the string with surrounding whitespace removed. -/
def pyTrim (s : String) : String :=
  ⟨trimChars s.data⟩

/-- Characters of a string split on a separator character, keeping empty
pieces, as the compiled strptime pattern segments its input. -/
def splitChars (sep : Char) : List Char → List (List Char)
  | [] => [[]]
  | c :: cs =>
    match splitChars sep cs with
    | [] => [[]]
    | h :: t => if c = sep then [] :: h :: t else (c :: h) :: t

/-- Numeric value of a digit run. -/
def charsToNat (l : List Char) : Nat :=
  l.foldl (fun n c => n * 10 + (c.toNat - 48)) 0

/-- Spreadsheet cell value: a text cell, an integer cell, or the missing
value NaN that pandas introduces for unmatched joins and absent cells. -/
inductive Value where
  | vs (s : String)
  | vi (n : Int)
  | nan
deriving DecidableEq, Repr

/-- Python str() of a cell value: text kept as is, integers printed, NaN
rendered as "nan" (as astype(str) renders it). -/
def Value.pyStr : Value → String
  | .vs s => s
  | .vi n => toString n
  | .nan => "nan"

/-- Record row: association list from column header to cell value, the shape
returned by worksheet.get_all_records() and held per row by a DataFrame. -/
abbrev Row := List (String × Value)

/-- Lookup of a column in a record row (first entry with that key). -/
def Row.get (r : Row) (k : String) : Option Value :=
  (r.find? (fun p => decide (p.1 = k))).map (fun p => p.2)

/-- Rendering of a DataFrame cell by astype(str): a missing cell is NaN and
renders as "nan". -/
def dfStr (r : Row) (k : String) : String :=
  match Row.get r k with
  | some v => v.pyStr
  | none => "nan"

/-- Python str(row.get(k)) on a dict row: str(None) is "None" when the key
is missing. -/
def pyStrO : Option Value → String
  | some v => v.pyStr
  | none => "None"

/-- Association-list column assignment, modelling a pandas column write on
one record row: replaces the first entry with the key, or appends a new
column at the end. -/
def setCol : Row → String → Value → Row
  | [], k, v => [(k, v)]
  | p :: ps, k, v => if p.1 = k then (k, v) :: ps else p :: setCol ps k v

/-- Last-wins dictionary lookup over a key/value pair list, as built by
dict(zip(keys, values)): a later duplicate key overrides an earlier one. -/
def dictGet (l : List (String × String)) (k : String) : Option String :=
  (l.reverse.find? (fun p => decide (p.1 = k))).map (fun p => p.2)

/-- Materialized logical table: the column list plus record rows (the
DataFrame produced by load_sheet_data). -/
structure Table where
  cols : List String
  rows : List Row
deriving DecidableEq, Repr

/-- Well-formed table: every row is a record over exactly the table columns,
in order, as pd.DataFrame materializes a list of uniform records. -/
def Table.WF (t : Table) : Prop :=
  ∀ r ∈ t.rows, r.map Prod.fst = t.cols

/-- Raw worksheet grid as the remote store holds it: the header row plus the
data rows of cells, addressed positionally. -/
structure Worksheet where
  headers : List String
  data : List (List Value)
deriving DecidableEq, Repr

/-- Positional single-element list update: modifyAt g i l applies g to the
element at index i and keeps every other element. -/
def modifyAt (g : α → α) : Nat → List α → List α
  | _, [] => []
  | 0, a :: as => g a :: as
  | n + 1, a :: as => a :: modifyAt g n as

/-- worksheet.update_cell on data row i (0-based here; the source addresses
it as row i+2, past the header row) and column c (0-based here; column c+1
in the source). -/
def Worksheet.updateCell (ws : Worksheet) (i c : Nat) (v : Value) : Worksheet :=
  ⟨ws.headers, modifyAt (fun row => row.set c v) i ws.data⟩

/-- worksheet.get_all_records(): each data row zipped with the header row. -/
def recordsOf (ws : Worksheet) : List Row :=
  ws.data.map (fun cells => ws.headers.zip cells)

/-- load_sheet_data seen as a DataFrame over the worksheet: records keyed by
column names stripped of surrounding whitespace (df.columns.str.strip()). -/
def tableOf (ws : Worksheet) : Table :=
  ⟨ws.headers.map (fun h => pyTrim h),
   ws.data.map (fun cells => (ws.headers.map (fun h => pyTrim h)).zip cells)⟩

/-- headers.index(n): 0-based position of the first occurrence of n. -/
def idxOf (n : String) : List String → Nat
  | [] => 0
  | h :: t => if h = n then 0 else idxOf n t + 1

/-- Index of the first list element satisfying p, modelling the
enumerate-and-scan loop both mutation operations use. -/
def firstMatch (p : α → Bool) : List α → Option Nat
  | [] => none
  | a :: as => if p a then some 0 else (firstMatch p as).map (fun j => j + 1)

/-- Calendar date produced by the date parser. -/
structure PDate where
  year : Nat
  month : Nat
  day : Nat
deriving DecidableEq, Repr

/-- Gregorian leap-year rule, as datetime.date validation uses it. -/
def isLeap (y : Nat) : Bool :=
  y % 4 == 0 && (y % 100 != 0 || y % 400 == 0)

/-- Number of days of a month, against which datetime.date validates the
day field. -/
def daysInMonth (y m : Nat) : Nat :=
  if m = 2 then (if isLeap y then 29 else 28)
  else if m = 4 ∨ m = 6 ∨ m = 9 ∨ m = 11 then 30 else 31

/-- One numeric strptime field: a digit run whose length lies within the
bounds of the regex the directive compiles to (1..2 digits for %d and %m,
exactly 4 digits for %Y), read as a number. -/
def parseField (lo hi : Nat) (l : List Char) : Option Nat :=
  if lo ≤ l.length ∧ l.length ≤ hi ∧ l.all Char.isDigit then
    some (charsToNat l)
  else none

/-- datetime.date construction: validates the year, month and day ranges
and otherwise rejects. -/
def mkDate (y m d : Nat) : Option PDate :=
  if 1 ≤ y ∧ y ≤ 9999 ∧ 1 ≤ m ∧ m ≤ 12 ∧ 1 ≤ d ∧ d ≤ daysInMonth y m then
    some ⟨y, m, d⟩
  else none

/-- strptime with format %d/%m/%Y matched against the full string. -/
def tryFmtDMYSlash (s : String) : Option PDate :=
  match splitChars '/' s.data with
  | [a, b, c] => do
      let d ← parseField 1 2 a
      let m ← parseField 1 2 b
      let y ← parseField 4 4 c
      mkDate y m d
  | _ => none

/-- strptime with format %Y-%m-%d matched against the full string. -/
def tryFmtISO (s : String) : Option PDate :=
  match splitChars '-' s.data with
  | [a, b, c] => do
      let y ← parseField 4 4 a
      let m ← parseField 1 2 b
      let d ← parseField 1 2 c
      mkDate y m d
  | _ => none

/-- strptime with format %m/%d/%Y matched against the full string. -/
def tryFmtMDYSlash (s : String) : Option PDate :=
  match splitChars '/' s.data with
  | [a, b, c] => do
      let m ← parseField 1 2 a
      let d ← parseField 1 2 b
      let y ← parseField 4 4 c
      mkDate y m d
  | _ => none

/-- strptime with format %d-%m-%Y matched against the full string. -/
def tryFmtDMYDash (s : String) : Option PDate :=
  match splitChars '-' s.data with
  | [a, b, c] => do
      let d ← parseField 1 2 a
      let m ← parseField 1 2 b
      let y ← parseField 4 4 c
      mkDate y m d
  | _ => none

/-- Body of parse_date on an already stripped string: the four formats are
tried in the source's fixed order and the first success wins. -/
def parseDateStr (s : String) : Option PDate :=
  tryFmtDMYSlash s <|> tryFmtISO s <|> tryFmtMDYSlash s <|> tryFmtDMYDash s

/-- parse_date: None and NaN inputs are rejected by the pd.isna guard;
every other value is rendered by str, stripped, and matched against the
format list. -/
def parse_date : Option Value → Option PDate
  | none => none
  | some .nan => none
  | some v => parseDateStr (pyTrim (Value.pyStr v))

/-- Two-digit zero padding of strftime numeric directives. -/
def pad2 (n : Nat) : String :=
  if n < 10 then "0" ++ toString n else toString n

/-- datetime.now().strftime of the pattern day/month/year used when a topic
is completed, applied to a model parameter standing for today. -/
def strftimeDMY (d : PDate) : String :=
  pad2 d.day ++ "/" ++ pad2 d.month ++ "/" ++ toString d.year

/-- authenticate_tutor: guards on a loadable nonempty Tutors table and its
two required columns, selects the first row whose stripped Tutor_ID equals
the stripped input, compares stripped passwords, and on success resolves
the display name from the Name column, falling back to the raw input id. -/
def authenticate_tutor (tutors : Option Table) (tutor_id password : String) :
    Bool × String :=
  match tutors with
  | none => (false, "Cannot access Tutors database")
  | some tb =>
    if tb.rows = [] then (false, "Cannot access Tutors database")
    else if "Tutor_ID" ∉ tb.cols then
      (false, "Tutors sheet missing Tutor_ID column")
    else if "Password" ∉ tb.cols then
      (false, "Tutors sheet missing Password column. Found columns: " ++
        String.intercalate ", " tb.cols)
    else
      match (tb.rows.filter
          (fun r => decide (pyTrim (dfStr r "Tutor_ID") = pyTrim tutor_id))).head? with
      | none => (false, "Invalid Tutor ID")
      | some r0 =>
        if pyTrim (dfStr r0 "Password") = pyTrim password then
          (true,
            if "Name" ∈ tb.cols then
              match Row.get r0 "Name" with
              | some v => v.pyStr
              | none => tutor_id
            else tutor_id)
        else (false, "Invalid password")

/-- get_tutor_classes: filters Schedule by stripped Tutor_ID equality and,
when a nonempty Students table is available, attaches a Student_Name column
mapped by stripped Student_ID (NaN when the id has no Students entry). -/
def get_tutor_classes (schedule students : Option Table) (tutor_id : String) :
    List Row :=
  match schedule with
  | none => []
  | some s =>
    if s.rows = [] then []
    else
      let tc := s.rows.filter
        (fun r => decide (pyTrim (dfStr r "Tutor_ID") = pyTrim tutor_id))
      match students with
      | some st =>
        if st.rows = [] then tc
        else
          let smap := st.rows.map
            (fun r => (pyTrim (dfStr r "Student_ID"), pyTrim (dfStr r "Student_Name")))
          tc.map (fun r =>
            setCol r "Student_Name"
              (match dictGet smap (pyTrim (dfStr r "Student_ID")) with
               | some n => Value.vs n
               | none => Value.nan))
      | none => tc

/-- Display name shown by show_class_card: cls.get of the Student_Name
column, defaulting to the Student_ID cell only when the Student_Name column
is entirely absent from the record. -/
def display_name (r : Row) : Value :=
  match Row.get r "Student_Name" with
  | some v => v
  | none => (Row.get r "Student_ID").getD Value.nan

/-- Derived-column assignment of get_student_plan on one plan row:
Sub_Unit_Name and Unit_Name mapped from the curriculum dictionaries (NaN
when unmatched), and Content_Link resolved from a present non-blank
Topic_Content cell, else from the Textbook_Ref dictionary with an empty
string default. -/
def addCurriculumCols (subPairs unitPairs linkPairs : List (String × String))
    (r : Row) : Row :=
  let key := pyTrim (dfStr r "Topic_ID")
  let subV : Value :=
    match dictGet subPairs key with
    | some s => Value.vs s
    | none => Value.nan
  let unitV : Value :=
    match dictGet unitPairs key with
    | some s => Value.vs s
    | none => Value.nan
  let contentV : Value :=
    match Row.get r "Topic_Content" with
    | some v =>
      if v ≠ Value.nan ∧ pyTrim (Value.pyStr v) ≠ "" then v
      else Value.vs ((dictGet linkPairs key).getD "")
    | none => Value.vs ((dictGet linkPairs key).getD "")
  setCol (setCol (setCol r "Sub_Unit_Name" subV) "Unit_Name" unitV)
    "Content_Link" contentV

/-- get_student_plan: requires both tables to have loaded, filters
Student_Plan by stripped Student_ID, and when the curriculum is nonempty
left-joins every kept row against the three curriculum dictionaries keyed
by stripped Topic_ID. -/
def get_student_plan (plan curriculum : Option Table) (student_id : String) :
    List Row :=
  match plan, curriculum with
  | some p, some c =>
    let sp := p.rows.filter
      (fun r => decide (pyTrim (dfStr r "Student_ID") = pyTrim student_id))
    if c.rows = [] then sp
    else
      let subPairs := c.rows.map
        (fun r => (pyTrim (dfStr r "Topic_ID"), pyTrim (dfStr r "Sub_Unit_Name")))
      let unitPairs := c.rows.map
        (fun r => (pyTrim (dfStr r "Topic_ID"), pyTrim (dfStr r "Unit_Name")))
      let linkPairs := c.rows.map
        (fun r => (pyTrim (dfStr r "Topic_ID"), pyTrim (dfStr r "Textbook_Ref")))
      sp.map (addCurriculumCols subPairs unitPairs linkPairs)
  | _, _ => []

/-- Completed metric computed by the plan view over the rows returned by
get_student_plan: the number of rows whose Status cell equals the exact
string Completed. -/
def completedCount (rows : List Row) : Nat :=
  (rows.filter
    (fun r => decide (Row.get r "Status" = some (Value.vs "Completed")))).length

/-- Outcome of a mutation operation: the worksheet after the call, the
success flag and message returned to the caller, and whether the record
cache was cleared. -/
structure MutResult where
  ws : Worksheet
  ok : Bool
  msg : String
  cleared : Bool
deriving DecidableEq, Repr

/-- save_tutor_memo: re-reads the Schedule records, binds to the first row
whose stripped Student_ID and stripped Date both match, requires the
Tutor_Memo column to pre-exist, writes the memo text into that cell by
position, and clears the record cache. -/
def save_tutor_memo (ws : Worksheet) (student_id class_date memo_text : String) :
    MutResult :=
  match firstMatch
      (fun r => decide (pyTrim (pyStrO (Row.get r "Student_ID")) = pyTrim student_id ∧
        pyTrim (pyStrO (Row.get r "Date")) = pyTrim class_date))
      (recordsOf ws) with
  | some idx =>
    if "Tutor_Memo" ∈ ws.headers then
      let memoCol := idxOf "Tutor_Memo" ws.headers
      ⟨ws.updateCell idx memoCol (Value.vs memo_text), true,
        "Memo saved successfully!", true⟩
    else ⟨ws, false, "Tutor_Memo column not found in Schedule sheet", false⟩
  | none => ⟨ws, false, "Class not found in schedule", false⟩

/-- mark_topic_complete: re-reads the Student_Plan records, binds to the
first row whose Plan_ID rendered by str equals the given id without any
stripping, resolves the three target columns by headers.index (a missing
column raises and is reported through the except branch with no write),
writes Status, Completed_By and Date_Completed by position, and clears the
record cache. -/
def mark_topic_complete (ws : Worksheet) (plan_id tutor_id : String)
    (today : PDate) : MutResult :=
  match firstMatch
      (fun r => decide (pyStrO (Row.get r "Plan_ID") = plan_id))
      (recordsOf ws) with
  | some idx =>
    if "Status" ∈ ws.headers ∧ "Completed_By" ∈ ws.headers ∧
        "Date_Completed" ∈ ws.headers then
      let statusCol := idxOf "Status" ws.headers
      let byCol := idxOf "Completed_By" ws.headers
      let dateCol := idxOf "Date_Completed" ws.headers
      let ws1 := ((ws.updateCell idx statusCol (Value.vs "Completed")).updateCell
        idx byCol (Value.vs tutor_id)).updateCell idx dateCol
        (Value.vs (strftimeDMY today))
      ⟨ws1, true, "Topic marked as completed!", true⟩
    else ⟨ws, false, "Error updating: column not found", false⟩
  | none => ⟨ws, false, "Plan ID not found", false⟩

/-- Error string surfaced by the login form: the empty-field warning, or the
message produced by authenticate_tutor on failure, shown verbatim. -/
def show_login_error (tutors : Option Table) (tutor_id password : String) :
    Option String :=
  if tutor_id = "" ∨ password = "" then
    some "Please enter both Tutor ID and Password"
  else
    match authenticate_tutor tutors tutor_id password with
    | (true, _) => none
    | (false, msg) => some msg

/-- Record cache keyed by logical sheet name, as st.cache_data keys
load_sheet_data by its argument. -/
abbrev Cache := List (String × Table)

/-- Cache lookup by sheet name. -/
def lookupCache (c : Cache) (n : String) : Option Table :=
  (c.find? (fun p => decide (p.1 = n))).map (fun p => p.2)

/-- Cache state after a mutation: st.cache_data.clear() drops every entry
whenever the mutation reached its clearing step. -/
def cacheAfter (cleared : Bool) (c : Cache) : Cache :=
  if cleared then [] else c

/-! Helper lemmas about the list primitives of the model. -/

theorem modifyAt_nil (g : α → α) (i : Nat) : modifyAt g i ([] : List α) = [] := by
  cases i <;> rfl

theorem modifyAt_getD_ne (g : α → α) (l : List α) (i j : Nat) (d : α)
    (h : j ≠ i) : (modifyAt g i l).getD j d = l.getD j d := by
  induction l generalizing i j with
  | nil => rw [modifyAt_nil]
  | cons a as ih =>
    cases i with
    | zero =>
      cases j with
      | zero => exact absurd rfl h
      | succ j => simp [modifyAt]
    | succ i =>
      cases j with
      | zero => simp [modifyAt]
      | succ j =>
        simp only [modifyAt, List.getD_cons_succ]
        exact ih i j (fun hji => h (by omega))

theorem modifyAt_getD_self (g : α → α) (l : List α) (i : Nat) (d : α)
    (h : i < l.length) : (modifyAt g i l).getD i d = g (l.getD i d) := by
  induction l generalizing i with
  | nil => simp at h
  | cons a as ih =>
    cases i with
    | zero => simp [modifyAt]
    | succ i =>
      simp only [modifyAt, List.getD_cons_succ]
      exact ih i (by simpa using h)

theorem modifyAt_length (g : α → α) (l : List α) (i : Nat) :
    (modifyAt g i l).length = l.length := by
  induction l generalizing i with
  | nil => rw [modifyAt_nil]
  | cons a as ih =>
    cases i with
    | zero => simp [modifyAt]
    | succ i => simp [modifyAt, ih]

theorem modifyAt_modifyAt (g1 g2 : α → α) (i : Nat) (l : List α) :
    modifyAt g2 i (modifyAt g1 i l) = modifyAt (fun a => g2 (g1 a)) i l := by
  induction l generalizing i with
  | nil => rw [modifyAt_nil, modifyAt_nil, modifyAt_nil]
  | cons a as ih =>
    cases i with
    | zero => simp [modifyAt]
    | succ i => simp [modifyAt, ih]

theorem map_modifyAt (f : α → β) (g : α → α) (g2 : β → β)
    (hcomm : ∀ a, f (g a) = g2 (f a)) (i : Nat) (l : List α) :
    (modifyAt g i l).map f = modifyAt g2 i (l.map f) := by
  induction l generalizing i with
  | nil => simp [modifyAt_nil]
  | cons a as ih =>
    cases i with
    | zero => simp [modifyAt, hcomm]
    | succ i => simp [modifyAt, ih]

theorem countP_modifyAt (p : α → Bool) (g : α → α) (l : List α) (i : Nat)
    (d : α) (h : i < l.length) (h1 : p (l.getD i d) = false)
    (h2 : p (g (l.getD i d)) = true) :
    (modifyAt g i l).countP p = l.countP p + 1 := by
  induction l generalizing i with
  | nil => simp at h
  | cons a as ih =>
    cases i with
    | zero =>
      simp only [List.getD_cons_zero] at h1 h2
      simp [modifyAt, List.countP_cons, h1, h2]
    | succ i =>
      simp only [List.getD_cons_succ] at h1 h2
      have := ih i (by simpa using h) h1 h2
      simp [modifyAt, List.countP_cons, this]
      omega

theorem getD_mem (l : List α) (i : Nat) (d : α) (h : i < l.length) :
    l.getD i d ∈ l := by
  induction l generalizing i with
  | nil => simp at h
  | cons a as ih =>
    cases i with
    | zero => simp
    | succ i => simp only [List.getD_cons_succ]; exact .tail _ (ih i (by simpa using h))

theorem getD_map (f : α → β) (l : List α) (i : Nat) (d : β) (d0 : α)
    (h : i < l.length) : (l.map f).getD i d = f (l.getD i d0) := by
  induction l generalizing i with
  | nil => simp at h
  | cons a as ih =>
    cases i with
    | zero => simp
    | succ i => simp only [List.map_cons, List.getD_cons_succ]; exact ih i (by simpa using h)

theorem firstMatch_lt (p : α → Bool) (l : List α) (i : Nat)
    (h : firstMatch p l = some i) : i < l.length := by
  induction l generalizing i with
  | nil => simp [firstMatch] at h
  | cons a as ih =>
    by_cases hpa : p a
    · simp [firstMatch, hpa] at h
      simp only [List.length_cons]
      omega
    · simp [firstMatch, hpa] at h
      obtain ⟨j, hj, rfl⟩ := h
      have := ih j hj
      simp only [List.length_cons]
      omega

theorem firstMatch_getD (p : α → Bool) (l : List α) (i : Nat) (d : α)
    (h : firstMatch p l = some i) : p (l.getD i d) = true := by
  induction l generalizing i with
  | nil => simp [firstMatch] at h
  | cons a as ih =>
    by_cases hpa : p a
    · simp [firstMatch, hpa] at h
      subst h
      simpa using hpa
    · simp [firstMatch, hpa] at h
      obtain ⟨j, hj, rfl⟩ := h
      simpa using ih j hj

theorem firstMatch_before (p : α → Bool) (l : List α) (i : Nat) (d : α)
    (h : firstMatch p l = some i) (j : Nat) (hj : j < i) :
    p (l.getD j d) = false := by
  induction l generalizing i j with
  | nil => simp [firstMatch] at h
  | cons a as ih =>
    by_cases hpa : p a
    · simp [firstMatch, hpa] at h
      omega
    · simp [firstMatch, hpa] at h
      obtain ⟨j2, hj2, rfl⟩ := h
      cases j with
      | zero => simpa using hpa
      | succ j => simpa using ih j2 hj2 j (by omega)

theorem idxOf_lt_length (n : String) (l : List String) (h : n ∈ l) :
    idxOf n l < l.length := by
  induction l with
  | nil => simp at h
  | cons a as ih =>
    by_cases ha : a = n
    · simp [idxOf, ha]
    · have : n ∈ as := by
        cases h with
        | head => exact absurd rfl ha
        | tail _ h => exact h
      simp only [idxOf, if_neg ha, List.length_cons]
      have := ih this
      omega

theorem getD_idxOf (n : String) (l : List String) (d : String) (h : n ∈ l) :
    l.getD (idxOf n l) d = n := by
  induction l with
  | nil => simp at h
  | cons a as ih =>
    by_cases ha : a = n
    · simp [idxOf, ha]
    · have : n ∈ as := by
        cases h with
        | head => exact absurd rfl ha
        | tail _ h => exact h
      simp only [idxOf, if_neg ha, List.getD_cons_succ]
      exact ih this

theorem idxOf_before (n : String) (l : List String) (d : String) (j : Nat)
    (hj : j < idxOf n l) : l.getD j d ≠ n := by
  induction l generalizing j with
  | nil => simp [idxOf] at hj
  | cons a as ih =>
    by_cases ha : a = n
    · simp [idxOf, ha] at hj
    · simp only [idxOf, if_neg ha] at hj
      cases j with
      | zero => simpa using ha
      | succ j => simpa using ih j (by omega)

/-! Helper lemmas about record rows, zipping and positional updates. -/

theorem Row.get_nil (k : String) : Row.get ([] : Row) k = none := rfl

theorem Row.get_cons (k0 : String) (v0 : Value) (r : Row) (k : String) :
    Row.get ((k0, v0) :: r) k = if k0 = k then some v0 else Row.get r k := by
  by_cases h : k0 = k <;> simp [Row.get, List.find?_cons, h]

theorem get_of_mem_keys (r : Row) (k : String) (h : k ∈ r.map Prod.fst) :
    ∃ v, Row.get r k = some v := by
  induction r with
  | nil => simp at h
  | cons p ps ih =>
    by_cases hp : p.1 = k
    · exact ⟨p.2, by rw [show p = (p.1, p.2) from rfl, Row.get_cons, if_pos hp]⟩
    · have : k ∈ ps.map Prod.fst := by
        simp at h
        rcases h with h | h
        · exact absurd h.symm hp
        · simpa using h
      obtain ⟨v, hv⟩ := ih this
      exact ⟨v, by rw [show p = (p.1, p.2) from rfl, Row.get_cons, if_neg hp]; exact hv⟩

theorem get_setCol_self (r : Row) (k : String) (v : Value) :
    Row.get (setCol r k v) k = some v := by
  induction r with
  | nil => simp [setCol, Row.get_cons, Row.get_nil]
  | cons p ps ih =>
    by_cases h : p.1 = k
    · simp [setCol, h, Row.get_cons]
    · rw [setCol, if_neg h, show p = (p.1, p.2) from rfl, Row.get_cons, if_neg h]
      exact ih

theorem get_setCol_ne (r : Row) (k k2 : String) (v : Value) (h : k2 ≠ k) :
    Row.get (setCol r k v) k2 = Row.get r k2 := by
  induction r with
  | nil =>
    show Row.get [(k, v)] k2 = Row.get [] k2
    rw [Row.get_cons, if_neg (fun hk : k = k2 => h hk.symm)]
  | cons p ps ih =>
    by_cases hp : p.1 = k
    · rw [setCol, if_pos hp, Row.get_cons,
        if_neg (fun hk : k = k2 => h hk.symm),
        show p = (p.1, p.2) from rfl, Row.get_cons, if_neg (hp ▸ fun hk : k = k2 => h hk.symm)]
    · rw [setCol, if_neg hp, show p = (p.1, p.2) from rfl, Row.get_cons, Row.get_cons]
      by_cases hk : p.1 = k2
      · rw [if_pos hk, if_pos hk]
      · rw [if_neg hk, if_neg hk]
        exact ih

theorem map_fst_zip_of_le (hs : List String) (cells : List Value)
    (h : hs.length ≤ cells.length) : (hs.zip cells).map Prod.fst = hs := by
  induction hs generalizing cells with
  | nil => simp
  | cons a as ih =>
    cases cells with
    | nil => simp at h
    | cons c cs =>
      simp only [List.zip_cons_cons, List.map_cons]
      rw [ih cs (by simpa using h)]

theorem zip_set_right (hs : List String) (row : List Value) (c : Nat) (v : Value)
    (hc : c < hs.length) :
    hs.zip (row.set c v) = (hs.zip row).set c (hs.getD c "", v) := by
  induction hs generalizing row c with
  | nil => simp at hc
  | cons h t ih =>
    cases row with
    | nil => simp
    | cons r rs =>
      cases c with
      | zero => simp
      | succ c =>
        simp only [List.set_cons_succ, List.zip_cons_cons, List.getD_cons_succ]
        rw [ih rs c (by simpa using hc)]

theorem get_set_record (z : Row) (hs : List String) (hk : z.map Prod.fst = hs)
    (n : String) (hn : n ∈ hs) (v : Value) (k : String) :
    Row.get (z.set (idxOf n hs) (n, v)) k =
      if k = n then some v else Row.get z k := by
  induction z generalizing hs with
  | nil => subst hk; simp at hn
  | cons p ps ih =>
    subst hk
    simp only [List.map_cons] at hn ⊢
    by_cases h1 : p.1 = n
    · simp only [idxOf, if_pos h1]
      simp only [List.set_cons_zero]
      rw [Row.get_cons]
      by_cases hk2 : k = n
      · rw [if_pos (hk2 ▸ rfl), if_pos hk2]
      · rw [if_neg (fun hnk : n = k => hk2 hnk.symm), if_neg hk2,
          show p = (p.1, p.2) from rfl, Row.get_cons,
          if_neg (h1 ▸ fun hnk : n = k => hk2 hnk.symm)]
    · have hn2 : n ∈ ps.map Prod.fst := by
        cases hn with
        | head => exact absurd rfl h1
        | tail _ h => exact h
      simp only [idxOf, if_neg h1]
      simp only [List.set_cons_succ]
      rw [show p = (p.1, p.2) from rfl, Row.get_cons, Row.get_cons]
      by_cases hpk : p.1 = k
      · rw [if_pos hpk, if_pos hpk, if_neg (fun hkn : k = n => h1 (hpk.symm ▸ hkn))]
      · rw [if_neg hpk, if_neg hpk]
        exact ih (ps.map Prod.fst) rfl hn2

theorem keys_set_record (z : Row) (hs : List String) (hk : z.map Prod.fst = hs)
    (n : String) (hn : n ∈ hs) (v : Value) :
    (z.set (idxOf n hs) (n, v)).map Prod.fst = hs := by
  induction z generalizing hs with
  | nil => subst hk; simp at hn
  | cons p ps ih =>
    subst hk
    by_cases h1 : p.1 = n
    · simp only [idxOf, if_pos h1]
      simp [h1]
    · have hn2 : n ∈ ps.map Prod.fst := by
        simp only [List.map_cons] at hn
        cases hn with
        | head => exact absurd rfl h1
        | tail _ h => exact h
      simp only [idxOf, if_neg h1]
      simp only [List.set_cons_succ, List.map_cons]
      rw [ih (ps.map Prod.fst) rfl hn2]

theorem recordsOf_length (ws : Worksheet) :
    (recordsOf ws).length = ws.data.length := by
  simp [recordsOf]

theorem keys_recordsOf (ws : Worksheet)
    (hw : ∀ r ∈ ws.data, r.length = ws.headers.length) (i : Nat)
    (hi : i < ws.data.length) :
    ((recordsOf ws).getD i []).map Prod.fst = ws.headers := by
  unfold recordsOf
  rw [getD_map _ _ i _ ([] : List Value) hi]
  exact map_fst_zip_of_le _ _ (le_of_eq (hw _ (getD_mem _ _ _ hi)).symm)

theorem recordsOf_updateCell (ws : Worksheet) (i c : Nat) (v : Value)
    (hc : c < ws.headers.length) :
    recordsOf (ws.updateCell i c v) =
      modifyAt (fun rec => rec.set c (ws.headers.getD c "", v)) i (recordsOf ws) := by
  unfold recordsOf Worksheet.updateCell
  exact map_modifyAt _ _ _ (fun row => zip_set_right ws.headers row c v hc) i ws.data

theorem map_id_of_mem (f : α → α) (l : List α) (h : ∀ a ∈ l, f a = a) :
    l.map f = l := by
  induction l with
  | nil => rfl
  | cons a as ih =>
    simp only [List.map_cons, h a (.head as)]
    rw [ih (fun b hb => h b (.tail a hb))]

theorem tableOf_of_trimmed (ws : Worksheet)
    (hh : ∀ h ∈ ws.headers, pyTrim h = h) :
    tableOf ws = ⟨ws.headers, recordsOf ws⟩ := by
  unfold tableOf recordsOf
  rw [map_id_of_mem _ _ hh]

theorem length_filter_filter (P Q : α → Bool) (l : List α) :
    ((l.filter Q).filter P).length = l.countP (fun a => P a && Q a) := by
  rw [← List.countP_eq_length_filter, List.countP_filter]

theorem length_filter_map (f : α → β) (P : β → Bool) (l : List α) :
    ((l.map f).filter P).length = (l.filter (fun a => P (f a))).length := by
  induction l with
  | nil => rfl
  | cons a as ih =>
    by_cases hp : P (f a)
    · simp [List.filter_cons, hp, ih]
    · simp [List.filter_cons, hp, ih]

theorem mem_of_head?_eq_some (l : List α) (a : α) (h : l.head? = some a) :
    a ∈ l := by
  cases l with
  | nil => simp at h
  | cons x xs =>
    simp at h
    subst h
    exact .head _

theorem save_cleared_eq_ok (ws : Worksheet) (sid cdate memo : String) :
    (save_tutor_memo ws sid cdate memo).cleared =
      (save_tutor_memo ws sid cdate memo).ok := by
  unfold save_tutor_memo
  split
  · split <;> rfl
  · rfl

theorem mark_cleared_eq_ok (ws : Worksheet) (pid tid : String) (today : PDate) :
    (mark_topic_complete ws pid tid today).cleared =
      (mark_topic_complete ws pid tid today).ok := by
  unfold mark_topic_complete
  split
  · split <;> rfl
  · rfl

/-! Claim theorems. -/

/-- C3: parse_date is a total function from input values to an optional
canonical date (missing, NaN and blank input give none), the four strptime
patterns are tried in the fixed source order day/month/year with slash, ISO,
month/day/year with slash, day-month-year with dash, the first full-string
success wins (years must be exactly four digits, as strptime compiles %Y),
and the documented examples evaluate as stated. -/
theorem claim_C3_parse_date :
    (∀ x : Option Value, parse_date x = none ∨ ∃ d : PDate, parse_date x = some d) ∧
    parse_date none = none ∧
    parse_date (some Value.nan) = none ∧
    parse_date (some (Value.vs "")) = none ∧
    parse_date (some (Value.vs "   ")) = none ∧
    parse_date (some (Value.vs "31/12/2024")) = some ⟨2024, 12, 31⟩ ∧
    parse_date (some (Value.vs "2024-12-31")) = some ⟨2024, 12, 31⟩ ∧
    parse_date (some (Value.vs "03/04/2024")) = some ⟨2024, 4, 3⟩ ∧
    parse_date (some (Value.vs "not-a-date")) = none ∧
    parse_date (some (Value.vs "31/12/24")) = none ∧
    parse_date (some (Value.vs "999-1-1")) = none ∧
    (∀ s d, tryFmtDMYSlash s = some d → parseDateStr s = some d) ∧
    (∀ s d, tryFmtDMYSlash s = none → tryFmtISO s = some d →
      parseDateStr s = some d) ∧
    (∀ s d, tryFmtDMYSlash s = none → tryFmtISO s = none →
      tryFmtMDYSlash s = some d → parseDateStr s = some d) ∧
    (∀ s, tryFmtDMYSlash s = none → tryFmtISO s = none →
      tryFmtMDYSlash s = none → parseDateStr s = tryFmtDMYDash s) := by
  refine ⟨?_, by decide, by decide, by decide, by decide, by decide, by decide,
    by decide, by decide, by decide, by decide, ?_, ?_, ?_, ?_⟩
  · intro x
    cases h : parse_date x with
    | none => exact Or.inl rfl
    | some d => exact Or.inr ⟨d, rfl⟩
  · intro s d h
    simp [parseDateStr, h]
  · intro s d h1 h2
    simp [parseDateStr, h1, h2]
  · intro s d h1 h2 h3
    simp [parseDateStr, h1, h2, h3]
  · intro s h1 h2 h3
    simp [parseDateStr, h1, h2, h3]

/-- Witness for C3: the priority statements applied at concrete inputs. -/
theorem claim_C3_witness :
    tryFmtDMYSlash "31/12/2024" = some ⟨2024, 12, 31⟩ ∧
    parseDateStr "31/12/2024" = some ⟨2024, 12, 31⟩ ∧
    tryFmtDMYSlash "2024-12-31" = none ∧
    tryFmtISO "2024-12-31" = some ⟨2024, 12, 31⟩ ∧
    parseDateStr "2024-12-31" = some ⟨2024, 12, 31⟩ :=
  ⟨by decide,
   claim_C3_parse_date.2.2.2.2.2.2.2.2.2.2.2.1 "31/12/2024" ⟨2024, 12, 31⟩
     (by decide),
   by decide, by decide,
   claim_C3_parse_date.2.2.2.2.2.2.2.2.2.2.2.2.1 "2024-12-31" ⟨2024, 12, 31⟩
     (by decide) (by decide)⟩

/-- C6: when no Student_Plan record has a Plan_ID whose str rendering equals
the given id, mark_topic_complete answers Plan ID not found, leaves the
worksheet untouched (zero cell writes) and does not clear the cache. -/
theorem claim_C6_mark_not_found (ws : Worksheet) (plan_id tutor_id : String)
    (today : PDate)
    (h : firstMatch (fun r => decide (pyStrO (Row.get r "Plan_ID") = plan_id))
      (recordsOf ws) = none) :
    mark_topic_complete ws plan_id tutor_id today =
      ⟨ws, false, "Plan ID not found", false⟩ := by
  unfold mark_topic_complete
  rw [h]

/-- Witness for C6: a concrete plan sheet with no row for id NOPE. -/
theorem claim_C6_witness :
    firstMatch (fun r => decide (pyStrO (Row.get r "Plan_ID") = "NOPE"))
      (recordsOf ⟨["Plan_ID", "Status", "Completed_By", "Date_Completed"],
        [[Value.vs "P1", Value.vs "Pending", Value.vs "", Value.vs ""]]⟩) = none ∧
    mark_topic_complete
      ⟨["Plan_ID", "Status", "Completed_By", "Date_Completed"],
        [[Value.vs "P1", Value.vs "Pending", Value.vs "", Value.vs ""]]⟩
      "NOPE" "T1" ⟨2026, 10, 12⟩ =
      ⟨⟨["Plan_ID", "Status", "Completed_By", "Date_Completed"],
        [[Value.vs "P1", Value.vs "Pending", Value.vs "", Value.vs ""]]⟩,
       false, "Plan ID not found", false⟩ :=
  ⟨by decide,
   claim_C6_mark_not_found
     ⟨["Plan_ID", "Status", "Completed_By", "Date_Completed"],
       [[Value.vs "P1", Value.vs "Pending", Value.vs "", Value.vs ""]]⟩
     "NOPE" "T1" ⟨2026, 10, 12⟩ (by decide)⟩

/-- C10: a successful run of either mutation reaches the global cache
clearing step, after which the cache holds no entry at all, so a following
read of any table name misses and must refetch remotely. -/
theorem claim_C10_clear_all (ws1 ws2 : Worksheet)
    (sid cdate memo pid tid : String) (today : PDate) (cache : Cache)
    (h1 : (save_tutor_memo ws1 sid cdate memo).ok = true)
    (h2 : (mark_topic_complete ws2 pid tid today).ok = true) :
    (save_tutor_memo ws1 sid cdate memo).cleared = true ∧
    (mark_topic_complete ws2 pid tid today).cleared = true ∧
    (∀ name, lookupCache
      (cacheAfter (save_tutor_memo ws1 sid cdate memo).cleared cache) name = none) ∧
    (∀ name, lookupCache
      (cacheAfter (mark_topic_complete ws2 pid tid today).cleared cache) name = none) := by
  have hc1 : (save_tutor_memo ws1 sid cdate memo).cleared = true := by
    rw [save_cleared_eq_ok, h1]
  have hc2 : (mark_topic_complete ws2 pid tid today).cleared = true := by
    rw [mark_cleared_eq_ok, h2]
  refine ⟨hc1, hc2, ?_, ?_⟩
  · intro name
    rw [hc1]
    rfl
  · intro name
    rw [hc2]
    rfl

/-- Witness for C10: concrete successful memo save and completion mark, and
the emptied cache missing on two table names. -/
theorem claim_C10_witness :
    (save_tutor_memo
      ⟨["Student_ID", "Date", "Tutor_Memo"],
        [[Value.vs "S1", Value.vs "01/01/2025", Value.vs ""]]⟩
      "S1" "01/01/2025" "note").ok = true ∧
    (mark_topic_complete
      ⟨["Plan_ID", "Status", "Completed_By", "Date_Completed"],
        [[Value.vs "P1", Value.vs "Pending", Value.vs "", Value.vs ""]]⟩
      "P1" "T1" ⟨2026, 10, 12⟩).ok = true ∧
    lookupCache
      (cacheAfter (save_tutor_memo
        ⟨["Student_ID", "Date", "Tutor_Memo"],
          [[Value.vs "S1", Value.vs "01/01/2025", Value.vs ""]]⟩
        "S1" "01/01/2025" "note").cleared
        [("Tutors", ⟨["Tutor_ID"], []⟩), ("Schedule", ⟨["Date"], []⟩)])
      "Tutors" = none ∧
    lookupCache
      (cacheAfter (mark_topic_complete
        ⟨["Plan_ID", "Status", "Completed_By", "Date_Completed"],
          [[Value.vs "P1", Value.vs "Pending", Value.vs "", Value.vs ""]]⟩
        "P1" "T1" ⟨2026, 10, 12⟩).cleared
        [("Tutors", ⟨["Tutor_ID"], []⟩), ("Schedule", ⟨["Date"], []⟩)])
      "Curriculum_Library" = none :=
  ⟨by decide, by decide,
   (claim_C10_clear_all
     ⟨["Student_ID", "Date", "Tutor_Memo"],
       [[Value.vs "S1", Value.vs "01/01/2025", Value.vs ""]]⟩
     ⟨["Plan_ID", "Status", "Completed_By", "Date_Completed"],
       [[Value.vs "P1", Value.vs "Pending", Value.vs "", Value.vs ""]]⟩
     "S1" "01/01/2025" "note" "P1" "T1" ⟨2026, 10, 12⟩
     [("Tutors", ⟨["Tutor_ID"], []⟩), ("Schedule", ⟨["Date"], []⟩)]
     (by decide) (by decide)).2.2.1 "Tutors",
   (claim_C10_clear_all
     ⟨["Student_ID", "Date", "Tutor_Memo"],
       [[Value.vs "S1", Value.vs "01/01/2025", Value.vs ""]]⟩
     ⟨["Plan_ID", "Status", "Completed_By", "Date_Completed"],
       [[Value.vs "P1", Value.vs "Pending", Value.vs "", Value.vs ""]]⟩
     "S1" "01/01/2025" "note" "P1" "T1" ⟨2026, 10, 12⟩
     [("Tutors", ⟨["Tutor_ID"], []⟩), ("Schedule", ⟨["Date"], []⟩)]
     (by decide) (by decide)).2.2.2 "Curriculum_Library"⟩

theorem authenticate_eq_of_trim_eq (tb : Table) (a b pw : String)
    (hw : tb.WF) (hname : "Name" ∈ tb.cols) (hab : pyTrim a = pyTrim b) :
    authenticate_tutor (some tb) a pw = authenticate_tutor (some tb) b pw := by
  unfold authenticate_tutor
  simp only [hab]
  by_cases h0 : tb.rows = []
  · simp only [if_pos h0]
  · simp only [if_neg h0]
    by_cases h1 : "Tutor_ID" ∉ tb.cols
    · simp only [if_pos h1]
    · simp only [if_neg h1]
      by_cases h2 : "Password" ∉ tb.cols
      · simp only [if_pos h2]
      · simp only [if_neg h2]
        cases hF : (tb.rows.filter
            (fun r => decide (pyTrim (dfStr r "Tutor_ID") = pyTrim b))).head? with
        | none => rfl
        | some r0 =>
          have hr0 : r0 ∈ tb.rows :=
            List.mem_of_mem_filter (mem_of_head?_eq_some _ _ hF)
          obtain ⟨v, hv⟩ := get_of_mem_keys r0 "Name" (by rw [hw r0 hr0]; exact hname)
          dsimp only
          rw [hv]
          simp only [if_pos hname]

/-- C2 counterexample: the Plan_ID lookup of mark_topic_complete compares
the str renderings without stripping, so two ids equal after trimming give
different results, refuting the claim for that lookup. -/
theorem claim_C2_counterexample :
    mark_topic_complete
      ⟨["Plan_ID", "Status", "Completed_By", "Date_Completed"],
        [[Value.vs "P1", Value.vs "Pending", Value.vs "", Value.vs ""]]⟩
      " P1 " "T1" ⟨2026, 10, 12⟩ ≠
    mark_topic_complete
      ⟨["Plan_ID", "Status", "Completed_By", "Date_Completed"],
        [[Value.vs "P1", Value.vs "Pending", Value.vs "", Value.vs ""]]⟩
      "P1" "T1" ⟨2026, 10, 12⟩ := by decide

/-- C2 (amended): trimmed-equal inputs give identical results for the tutor
lookup of authenticate_tutor (for a well-formed Tutors table with a Name
column, since the success branch can echo the raw input id when the Name
column is missing), for the Tutor_ID filter of get_tutor_classes, the
Student_ID filter of get_student_plan and the Student_ID and Date lookup of
save_tutor_memo; the Plan_ID lookup of mark_topic_complete is excluded, as
it compares raw str renderings; identifiers are everywhere compared as
strings with no numeric coercion, so the id 007 does not match an integer
cell 7 while the id 7 does. -/
theorem claim_C2_amended (tb : Table) (a b pw : String)
    (hw : tb.WF) (hname : "Name" ∈ tb.cols) (hab : pyTrim a = pyTrim b)
    (sched studs plan cur : Option Table) (a2 b2 d1 d2 m : String)
    (ws : Worksheet)
    (hab2 : pyTrim a2 = pyTrim b2) (hd12 : pyTrim d1 = pyTrim d2) :
    authenticate_tutor (some tb) a pw = authenticate_tutor (some tb) b pw ∧
    get_tutor_classes sched studs a2 = get_tutor_classes sched studs b2 ∧
    get_student_plan plan cur a2 = get_student_plan plan cur b2 ∧
    save_tutor_memo ws a2 d1 m = save_tutor_memo ws b2 d2 m ∧
    authenticate_tutor (some ⟨["Tutor_ID", "Password"],
      [[("Tutor_ID", Value.vi 7), ("Password", Value.vs "x")]]⟩) "007" "x" =
      (false, "Invalid Tutor ID") ∧
    authenticate_tutor (some ⟨["Tutor_ID", "Password"],
      [[("Tutor_ID", Value.vi 7), ("Password", Value.vs "x")]]⟩) "7" "x" =
      (true, "7") := by
  refine ⟨authenticate_eq_of_trim_eq tb a b pw hw hname hab, ?_, ?_, ?_,
    by decide, by decide⟩
  · unfold get_tutor_classes
    simp only [hab2]
  · unfold get_student_plan
    simp only [hab2]
  · unfold save_tutor_memo
    simp only [hab2, hd12]

/-- Witness for C2 at concrete tables and trimmed-equal identifier pairs. -/
theorem claim_C2_witness :
    authenticate_tutor (some ⟨["Tutor_ID", "Password", "Name"],
      [[("Tutor_ID", Value.vs "T1"), ("Password", Value.vs "pw"),
        ("Name", Value.vs "Alice")]]⟩) " T1 " "pw" =
    authenticate_tutor (some ⟨["Tutor_ID", "Password", "Name"],
      [[("Tutor_ID", Value.vs "T1"), ("Password", Value.vs "pw"),
        ("Name", Value.vs "Alice")]]⟩) "T1" "pw" ∧
    get_tutor_classes (some ⟨["Tutor_ID", "Student_ID"],
      [[("Tutor_ID", Value.vs "T1"), ("Student_ID", Value.vs "S1")]]⟩)
      (some ⟨["Student_ID", "Student_Name"],
      [[("Student_ID", Value.vs "S1"), ("Student_Name", Value.vs "Ann")]]⟩)
      " S1 " =
    get_tutor_classes (some ⟨["Tutor_ID", "Student_ID"],
      [[("Tutor_ID", Value.vs "T1"), ("Student_ID", Value.vs "S1")]]⟩)
      (some ⟨["Student_ID", "Student_Name"],
      [[("Student_ID", Value.vs "S1"), ("Student_Name", Value.vs "Ann")]]⟩)
      "S1" ∧
    get_student_plan (some ⟨["Student_ID", "Topic_ID", "Status"],
      [[("Student_ID", Value.vs "S1"), ("Topic_ID", Value.vs "T9"),
        ("Status", Value.vs "Pending")]]⟩)
      (some ⟨["Topic_ID", "Sub_Unit_Name", "Unit_Name", "Textbook_Ref"], []⟩)
      " S1 " =
    get_student_plan (some ⟨["Student_ID", "Topic_ID", "Status"],
      [[("Student_ID", Value.vs "S1"), ("Topic_ID", Value.vs "T9"),
        ("Status", Value.vs "Pending")]]⟩)
      (some ⟨["Topic_ID", "Sub_Unit_Name", "Unit_Name", "Textbook_Ref"], []⟩)
      "S1" ∧
    save_tutor_memo ⟨["Student_ID", "Date", "Tutor_Memo"],
      [[Value.vs "S1", Value.vs "01/01/2025", Value.vs ""]]⟩
      " S1 " " 01/01/2025 " "memo" =
    save_tutor_memo ⟨["Student_ID", "Date", "Tutor_Memo"],
      [[Value.vs "S1", Value.vs "01/01/2025", Value.vs ""]]⟩
      "S1" "01/01/2025" "memo" ∧
    authenticate_tutor (some ⟨["Tutor_ID", "Password"],
      [[("Tutor_ID", Value.vi 7), ("Password", Value.vs "x")]]⟩) "007" "x" =
      (false, "Invalid Tutor ID") ∧
    authenticate_tutor (some ⟨["Tutor_ID", "Password"],
      [[("Tutor_ID", Value.vi 7), ("Password", Value.vs "x")]]⟩) "7" "x" =
      (true, "7") :=
  claim_C2_amended
    ⟨["Tutor_ID", "Password", "Name"],
      [[("Tutor_ID", Value.vs "T1"), ("Password", Value.vs "pw"),
        ("Name", Value.vs "Alice")]]⟩
    " T1 " "T1" "pw" (by unfold Table.WF; decide) (by decide) (by decide)
    (some ⟨["Tutor_ID", "Student_ID"],
      [[("Tutor_ID", Value.vs "T1"), ("Student_ID", Value.vs "S1")]]⟩)
    (some ⟨["Student_ID", "Student_Name"],
      [[("Student_ID", Value.vs "S1"), ("Student_Name", Value.vs "Ann")]]⟩)
    (some ⟨["Student_ID", "Topic_ID", "Status"],
      [[("Student_ID", Value.vs "S1"), ("Topic_ID", Value.vs "T9"),
        ("Status", Value.vs "Pending")]]⟩)
    (some ⟨["Topic_ID", "Sub_Unit_Name", "Unit_Name", "Textbook_Ref"], []⟩)
    " S1 " "S1" " 01/01/2025 " "01/01/2025" "memo"
    ⟨["Student_ID", "Date", "Tutor_Memo"],
      [[Value.vs "S1", Value.vs "01/01/2025", Value.vs ""]]⟩
    (by decide) (by decide)

/-- C9 counterexample: the login form shows the raw core messages, so an
unknown id and a wrong password for a known id produce two different
user-visible errors at a concrete Tutors table. -/
theorem claim_C9_counterexample :
    show_login_error (some ⟨["Tutor_ID", "Password"],
      [[("Tutor_ID", Value.vs "T1"), ("Password", Value.vs "pw")]]⟩)
      "T2" "pw" ≠
    show_login_error (some ⟨["Tutor_ID", "Password"],
      [[("Tutor_ID", Value.vs "T1"), ("Password", Value.vs "pw")]]⟩)
      "T1" "bad" := by decide

/-- C9 (amended): the login form surfaces the two failures verbatim as
Invalid Tutor ID and Invalid password, which are distinct strings, so the
UI output does distinguish an unknown id from a wrong password for an
existing id. -/
theorem claim_C9_amended (tb : Table) (tidU pwU tidK pwK : String)
    (hU1 : tidU ≠ "") (hU2 : pwU ≠ "") (hK1 : tidK ≠ "") (hK2 : pwK ≠ "")
    (h3 : tb.rows ≠ []) (h1 : "Tutor_ID" ∈ tb.cols) (h2 : "Password" ∈ tb.cols)
    (hnomatch : (tb.rows.filter
      (fun r => decide (pyTrim (dfStr r "Tutor_ID") = pyTrim tidU))).head? = none)
    (r0 : Row)
    (hmatch : (tb.rows.filter
      (fun r => decide (pyTrim (dfStr r "Tutor_ID") = pyTrim tidK))).head? = some r0)
    (hbad : pyTrim (dfStr r0 "Password") ≠ pyTrim pwK) :
    show_login_error (some tb) tidU pwU = some "Invalid Tutor ID" ∧
    show_login_error (some tb) tidK pwK = some "Invalid password" ∧
    show_login_error (some tb) tidU pwU ≠ show_login_error (some tb) tidK pwK := by
  have a1 : authenticate_tutor (some tb) tidU pwU = (false, "Invalid Tutor ID") := by
    unfold authenticate_tutor
    simp only [if_neg h3, if_neg (not_not_intro h1), if_neg (not_not_intro h2)]
    rw [hnomatch]
  have a2 : authenticate_tutor (some tb) tidK pwK = (false, "Invalid password") := by
    unfold authenticate_tutor
    simp only [if_neg h3, if_neg (not_not_intro h1), if_neg (not_not_intro h2)]
    rw [hmatch]
    simp only [if_neg hbad]
  have s1 : show_login_error (some tb) tidU pwU = some "Invalid Tutor ID" := by
    unfold show_login_error
    rw [if_neg (by simp [hU1, hU2]), a1]
  have s2 : show_login_error (some tb) tidK pwK = some "Invalid password" := by
    unfold show_login_error
    rw [if_neg (by simp [hK1, hK2]), a2]
  refine ⟨s1, s2, ?_⟩
  rw [s1, s2]
  simp

/-- Witness for C9 at a concrete Tutors table. -/
theorem claim_C9_witness :
    show_login_error (some ⟨["Tutor_ID", "Password"],
      [[("Tutor_ID", Value.vs "T1"), ("Password", Value.vs "pw")]]⟩)
      "T2" "x" = some "Invalid Tutor ID" ∧
    show_login_error (some ⟨["Tutor_ID", "Password"],
      [[("Tutor_ID", Value.vs "T1"), ("Password", Value.vs "pw")]]⟩)
      "T1" "bad" = some "Invalid password" ∧
    show_login_error (some ⟨["Tutor_ID", "Password"],
      [[("Tutor_ID", Value.vs "T1"), ("Password", Value.vs "pw")]]⟩)
      "T2" "x" ≠
    show_login_error (some ⟨["Tutor_ID", "Password"],
      [[("Tutor_ID", Value.vs "T1"), ("Password", Value.vs "pw")]]⟩)
      "T1" "bad" :=
  claim_C9_amended
    ⟨["Tutor_ID", "Password"],
      [[("Tutor_ID", Value.vs "T1"), ("Password", Value.vs "pw")]]⟩
    "T2" "x" "T1" "bad"
    (by decide) (by decide) (by decide) (by decide)
    (by decide) (by decide) (by decide)
    (by decide)
    [("Tutor_ID", Value.vs "T1"), ("Password", Value.vs "pw")]
    (by decide) (by decide)

/-- C7 counterexample: at a concrete Student_Plan row whose Topic_ID has no
Curriculum_Library match the joined row is kept, but its Sub_Unit_Name cell
is the missing value NaN, not the empty string the claim states. -/
theorem claim_C7_counterexample :
    (get_student_plan
      (some ⟨["Student_ID", "Topic_ID", "Status"],
        [[("Student_ID", Value.vs "S1"), ("Topic_ID", Value.vs "T404"),
          ("Status", Value.vs "Pending")]]⟩)
      (some ⟨["Topic_ID", "Sub_Unit_Name", "Unit_Name", "Textbook_Ref"],
        [[("Topic_ID", Value.vs "T1"), ("Sub_Unit_Name", Value.vs "Algebra"),
          ("Unit_Name", Value.vs "U1"), ("Textbook_Ref", Value.vs "R1")]]⟩)
      "S1").length = 1 ∧
    Row.get ((get_student_plan
      (some ⟨["Student_ID", "Topic_ID", "Status"],
        [[("Student_ID", Value.vs "S1"), ("Topic_ID", Value.vs "T404"),
          ("Status", Value.vs "Pending")]]⟩)
      (some ⟨["Topic_ID", "Sub_Unit_Name", "Unit_Name", "Textbook_Ref"],
        [[("Topic_ID", Value.vs "T1"), ("Sub_Unit_Name", Value.vs "Algebra"),
          ("Unit_Name", Value.vs "U1"), ("Textbook_Ref", Value.vs "R1")]]⟩)
      "S1").getD 0 []) "Sub_Unit_Name" = some Value.nan ∧
    Row.get ((get_student_plan
      (some ⟨["Student_ID", "Topic_ID", "Status"],
        [[("Student_ID", Value.vs "S1"), ("Topic_ID", Value.vs "T404"),
          ("Status", Value.vs "Pending")]]⟩)
      (some ⟨["Topic_ID", "Sub_Unit_Name", "Unit_Name", "Textbook_Ref"],
        [[("Topic_ID", Value.vs "T1"), ("Sub_Unit_Name", Value.vs "Algebra"),
          ("Unit_Name", Value.vs "U1"), ("Textbook_Ref", Value.vs "R1")]]⟩)
      "S1").getD 0 []) "Sub_Unit_Name" ≠ some (Value.vs "") := by
  refine ⟨by decide, by decide, by decide⟩

/-- C7 (amended): a Student_Plan row kept by the student filter whose
trimmed Topic_ID has no entry in the nonempty curriculum dictionary is
still present in the join result (never dropped, and the join is a total
function so nothing is raised), its original Student_ID, Topic_ID and
Status cells are untouched, and its derived Sub_Unit_Name cell is the
missing value NaN rather than the empty string. -/
theorem claim_C7_amended (p c : Table) (sid : String) (r : Row)
    (hr : r ∈ p.rows) (hq : pyTrim (dfStr r "Student_ID") = pyTrim sid)
    (hc : c.rows ≠ [])
    (hnone : dictGet (c.rows.map (fun cr =>
        (pyTrim (dfStr cr "Topic_ID"), pyTrim (dfStr cr "Sub_Unit_Name"))))
      (pyTrim (dfStr r "Topic_ID")) = none) :
    addCurriculumCols
      (c.rows.map (fun cr =>
        (pyTrim (dfStr cr "Topic_ID"), pyTrim (dfStr cr "Sub_Unit_Name"))))
      (c.rows.map (fun cr =>
        (pyTrim (dfStr cr "Topic_ID"), pyTrim (dfStr cr "Unit_Name"))))
      (c.rows.map (fun cr =>
        (pyTrim (dfStr cr "Topic_ID"), pyTrim (dfStr cr "Textbook_Ref"))))
      r ∈ get_student_plan (some p) (some c) sid ∧
    Row.get (addCurriculumCols
      (c.rows.map (fun cr =>
        (pyTrim (dfStr cr "Topic_ID"), pyTrim (dfStr cr "Sub_Unit_Name"))))
      (c.rows.map (fun cr =>
        (pyTrim (dfStr cr "Topic_ID"), pyTrim (dfStr cr "Unit_Name"))))
      (c.rows.map (fun cr =>
        (pyTrim (dfStr cr "Topic_ID"), pyTrim (dfStr cr "Textbook_Ref"))))
      r) "Sub_Unit_Name" = some Value.nan ∧
    Row.get (addCurriculumCols
      (c.rows.map (fun cr =>
        (pyTrim (dfStr cr "Topic_ID"), pyTrim (dfStr cr "Sub_Unit_Name"))))
      (c.rows.map (fun cr =>
        (pyTrim (dfStr cr "Topic_ID"), pyTrim (dfStr cr "Unit_Name"))))
      (c.rows.map (fun cr =>
        (pyTrim (dfStr cr "Topic_ID"), pyTrim (dfStr cr "Textbook_Ref"))))
      r) "Student_ID" = Row.get r "Student_ID" ∧
    Row.get (addCurriculumCols
      (c.rows.map (fun cr =>
        (pyTrim (dfStr cr "Topic_ID"), pyTrim (dfStr cr "Sub_Unit_Name"))))
      (c.rows.map (fun cr =>
        (pyTrim (dfStr cr "Topic_ID"), pyTrim (dfStr cr "Unit_Name"))))
      (c.rows.map (fun cr =>
        (pyTrim (dfStr cr "Topic_ID"), pyTrim (dfStr cr "Textbook_Ref"))))
      r) "Topic_ID" = Row.get r "Topic_ID" ∧
    Row.get (addCurriculumCols
      (c.rows.map (fun cr =>
        (pyTrim (dfStr cr "Topic_ID"), pyTrim (dfStr cr "Sub_Unit_Name"))))
      (c.rows.map (fun cr =>
        (pyTrim (dfStr cr "Topic_ID"), pyTrim (dfStr cr "Unit_Name"))))
      (c.rows.map (fun cr =>
        (pyTrim (dfStr cr "Topic_ID"), pyTrim (dfStr cr "Textbook_Ref"))))
      r) "Status" = Row.get r "Status" := by
  have hout : get_student_plan (some p) (some c) sid =
      (p.rows.filter (fun row =>
        decide (pyTrim (dfStr row "Student_ID") = pyTrim sid))).map
        (addCurriculumCols
          (c.rows.map (fun cr =>
            (pyTrim (dfStr cr "Topic_ID"), pyTrim (dfStr cr "Sub_Unit_Name"))))
          (c.rows.map (fun cr =>
            (pyTrim (dfStr cr "Topic_ID"), pyTrim (dfStr cr "Unit_Name"))))
          (c.rows.map (fun cr =>
            (pyTrim (dfStr cr "Topic_ID"), pyTrim (dfStr cr "Textbook_Ref"))))) := by
    simp only [get_student_plan]
    rw [if_neg hc]
  refine ⟨?_, ?_, ?_, ?_, ?_⟩
  · rw [hout]
    exact List.mem_map_of_mem _ (List.mem_filter.mpr ⟨hr, by simp [hq]⟩)
  · simp only [addCurriculumCols]
    rw [get_setCol_ne _ _ _ _ (by decide), get_setCol_ne _ _ _ _ (by decide),
      get_setCol_self, hnone]
  · simp only [addCurriculumCols]
    rw [get_setCol_ne _ _ _ _ (by decide), get_setCol_ne _ _ _ _ (by decide),
      get_setCol_ne _ _ _ _ (by decide)]
  · simp only [addCurriculumCols]
    rw [get_setCol_ne _ _ _ _ (by decide), get_setCol_ne _ _ _ _ (by decide),
      get_setCol_ne _ _ _ _ (by decide)]
  · simp only [addCurriculumCols]
    rw [get_setCol_ne _ _ _ _ (by decide), get_setCol_ne _ _ _ _ (by decide),
      get_setCol_ne _ _ _ _ (by decide)]

/-- Witness for C7 at concrete plan and curriculum tables. -/
theorem claim_C7_witness :
    addCurriculumCols [("T1", "Algebra")] [("T1", "U1")] [("T1", "R1")]
      [("Student_ID", Value.vs "S1"), ("Topic_ID", Value.vs "T404"),
        ("Status", Value.vs "Pending")] ∈
      get_student_plan
        (some ⟨["Student_ID", "Topic_ID", "Status"],
          [[("Student_ID", Value.vs "S1"), ("Topic_ID", Value.vs "T404"),
            ("Status", Value.vs "Pending")]]⟩)
        (some ⟨["Topic_ID", "Sub_Unit_Name", "Unit_Name", "Textbook_Ref"],
          [[("Topic_ID", Value.vs "T1"), ("Sub_Unit_Name", Value.vs "Algebra"),
            ("Unit_Name", Value.vs "U1"), ("Textbook_Ref", Value.vs "R1")]]⟩)
        "S1" ∧
    Row.get (addCurriculumCols [("T1", "Algebra")] [("T1", "U1")] [("T1", "R1")]
      [("Student_ID", Value.vs "S1"), ("Topic_ID", Value.vs "T404"),
        ("Status", Value.vs "Pending")]) "Sub_Unit_Name" = some Value.nan ∧
    Row.get (addCurriculumCols [("T1", "Algebra")] [("T1", "U1")] [("T1", "R1")]
      [("Student_ID", Value.vs "S1"), ("Topic_ID", Value.vs "T404"),
        ("Status", Value.vs "Pending")]) "Student_ID" =
      Row.get [("Student_ID", Value.vs "S1"), ("Topic_ID", Value.vs "T404"),
        ("Status", Value.vs "Pending")] "Student_ID" ∧
    Row.get (addCurriculumCols [("T1", "Algebra")] [("T1", "U1")] [("T1", "R1")]
      [("Student_ID", Value.vs "S1"), ("Topic_ID", Value.vs "T404"),
        ("Status", Value.vs "Pending")]) "Topic_ID" =
      Row.get [("Student_ID", Value.vs "S1"), ("Topic_ID", Value.vs "T404"),
        ("Status", Value.vs "Pending")] "Topic_ID" ∧
    Row.get (addCurriculumCols [("T1", "Algebra")] [("T1", "U1")] [("T1", "R1")]
      [("Student_ID", Value.vs "S1"), ("Topic_ID", Value.vs "T404"),
        ("Status", Value.vs "Pending")]) "Status" =
      Row.get [("Student_ID", Value.vs "S1"), ("Topic_ID", Value.vs "T404"),
        ("Status", Value.vs "Pending")] "Status" :=
  claim_C7_amended
    ⟨["Student_ID", "Topic_ID", "Status"],
      [[("Student_ID", Value.vs "S1"), ("Topic_ID", Value.vs "T404"),
        ("Status", Value.vs "Pending")]]⟩
    ⟨["Topic_ID", "Sub_Unit_Name", "Unit_Name", "Textbook_Ref"],
      [[("Topic_ID", Value.vs "T1"), ("Sub_Unit_Name", Value.vs "Algebra"),
        ("Unit_Name", Value.vs "U1"), ("Textbook_Ref", Value.vs "R1")]]⟩
    "S1"
    [("Student_ID", Value.vs "S1"), ("Topic_ID", Value.vs "T404"),
      ("Status", Value.vs "Pending")]
    (by decide) (by decide) (by decide) (by decide)

/-- C4: over a loadable nonempty Tutors table with the two required columns,
authenticate_tutor answers the unknown-tutor error exactly when the trimmed
Tutor_ID filter is empty; when a first matching row exists it answers the
bad-credentials error exactly when that row's trimmed Password differs from
the trimmed input; and on success it returns the row's Name rendered by
str, or the raw input id when the Name column is absent. -/
theorem claim_C4_authenticate (tb : Table) (tid pw : String)
    (h1 : "Tutor_ID" ∈ tb.cols) (h2 : "Password" ∈ tb.cols)
    (h3 : tb.rows ≠ []) :
    (authenticate_tutor (some tb) tid pw = (false, "Invalid Tutor ID") ↔
      tb.rows.filter
        (fun r => decide (pyTrim (dfStr r "Tutor_ID") = pyTrim tid)) = []) ∧
    (∀ r0, (tb.rows.filter
        (fun r => decide (pyTrim (dfStr r "Tutor_ID") = pyTrim tid))).head? =
          some r0 →
      (authenticate_tutor (some tb) tid pw = (false, "Invalid password") ↔
        pyTrim (dfStr r0 "Password") ≠ pyTrim pw) ∧
      (pyTrim (dfStr r0 "Password") = pyTrim pw →
        ("Name" ∉ tb.cols → authenticate_tutor (some tb) tid pw = (true, tid)) ∧
        (∀ v, "Name" ∈ tb.cols → Row.get r0 "Name" = some v →
          authenticate_tutor (some tb) tid pw = (true, v.pyStr)))) := by
  cases hF : (tb.rows.filter
      (fun r => decide (pyTrim (dfStr r "Tutor_ID") = pyTrim tid))).head? with
  | none =>
    have ha : authenticate_tutor (some tb) tid pw = (false, "Invalid Tutor ID") := by
      unfold authenticate_tutor
      simp only [if_neg h3, if_neg (not_not_intro h1), if_neg (not_not_intro h2)]
      rw [hF]
    have hEmpty : tb.rows.filter
        (fun r => decide (pyTrim (dfStr r "Tutor_ID") = pyTrim tid)) = [] := by
      cases he : tb.rows.filter
          (fun r => decide (pyTrim (dfStr r "Tutor_ID") = pyTrim tid)) with
      | nil => rfl
      | cons x xs => rw [he] at hF; simp at hF
    refine ⟨⟨fun _ => hEmpty, fun _ => ha⟩, ?_⟩
    intro r0 hr0
    exact absurd hr0 (by simp)
  | some r0 =>
    have ha : authenticate_tutor (some tb) tid pw =
        if pyTrim (dfStr r0 "Password") = pyTrim pw then
          (true, if "Name" ∈ tb.cols then
            (match Row.get r0 "Name" with
             | some v => v.pyStr
             | none => tid)
          else tid)
        else (false, "Invalid password") := by
      unfold authenticate_tutor
      simp only [if_neg h3, if_neg (not_not_intro h1), if_neg (not_not_intro h2)]
      rw [hF]
    constructor
    · constructor
      · intro h
        by_cases hpw : pyTrim (dfStr r0 "Password") = pyTrim pw
        · rw [ha, if_pos hpw] at h
          simp at h
        · rw [ha, if_neg hpw] at h
          simp only [Prod.mk.injEq] at h
          exact absurd h.2 (by decide)
      · intro h
        rw [h] at hF
        simp at hF
    · intro r1 hr1
      have : r0 = r1 := Option.some.inj hr1
      subst this
      constructor
      · by_cases hpw : pyTrim (dfStr r0 "Password") = pyTrim pw
        · rw [ha, if_pos hpw]
          simp [hpw]
        · rw [ha, if_neg hpw]
          simp [hpw]
      · intro hpw
        constructor
        · intro hnot
          rw [ha, if_pos hpw, if_neg hnot]
        · intro v hname hv
          rw [ha, if_pos hpw, if_pos hname, hv]

/-- Witness for C4: a concrete Tutors table exercising the success path, the
unknown-id path and the wrong-password path. -/
theorem claim_C4_witness :
    authenticate_tutor (some ⟨["Tutor_ID", "Password", "Name"],
      [[("Tutor_ID", Value.vs "T1"), ("Password", Value.vs "pw"),
        ("Name", Value.vs "Alice")]]⟩) "T1" "pw" = (true, "Alice") ∧
    (⟨["Tutor_ID", "Password", "Name"],
      [[("Tutor_ID", Value.vs "T1"), ("Password", Value.vs "pw"),
        ("Name", Value.vs "Alice")]]⟩ : Table).rows.filter
      (fun r => decide (pyTrim (dfStr r "Tutor_ID") = pyTrim "T9")) = [] ∧
    authenticate_tutor (some ⟨["Tutor_ID", "Password", "Name"],
      [[("Tutor_ID", Value.vs "T1"), ("Password", Value.vs "pw"),
        ("Name", Value.vs "Alice")]]⟩) "T1" "bad" = (false, "Invalid password") :=
  ⟨(((claim_C4_authenticate
      ⟨["Tutor_ID", "Password", "Name"],
        [[("Tutor_ID", Value.vs "T1"), ("Password", Value.vs "pw"),
          ("Name", Value.vs "Alice")]]⟩
      "T1" "pw" (by decide) (by decide) (by decide)).2
      [("Tutor_ID", Value.vs "T1"), ("Password", Value.vs "pw"),
        ("Name", Value.vs "Alice")]
      (by decide)).2 (by decide)).2 (Value.vs "Alice") (by decide) (by decide),
   (claim_C4_authenticate
      ⟨["Tutor_ID", "Password", "Name"],
        [[("Tutor_ID", Value.vs "T1"), ("Password", Value.vs "pw"),
          ("Name", Value.vs "Alice")]]⟩
      "T9" "x" (by decide) (by decide) (by decide)).1.mp (by decide),
   ((claim_C4_authenticate
      ⟨["Tutor_ID", "Password", "Name"],
        [[("Tutor_ID", Value.vs "T1"), ("Password", Value.vs "pw"),
          ("Name", Value.vs "Alice")]]⟩
      "T1" "bad" (by decide) (by decide) (by decide)).2
      [("Tutor_ID", Value.vs "T1"), ("Password", Value.vs "pw"),
        ("Name", Value.vs "Alice")]
      (by decide)).1.mpr (by decide)⟩

/-- C5: save_tutor_memo rescans the freshly read Schedule records and binds
to the first row whose stripped Student_ID and stripped Date both match
(earlier rows all fail the pair predicate, so the first match wins on
collisions); with no matching row it reports the class as not found, with a
match but no pre-existing Tutor_Memo column it reports the missing column
and writes nothing; on success it writes the memo text into exactly that
row's Tutor_Memo cell, keeps every other row and every other cell of the
bound row unchanged, and clears the Schedule cache entry. -/
theorem claim_C5_save_memo (ws : Worksheet) (sid cdate memo : String)
    (hw : ∀ r ∈ ws.data, r.length = ws.headers.length) :
    (firstMatch (fun r =>
        decide (pyTrim (pyStrO (Row.get r "Student_ID")) = pyTrim sid ∧
          pyTrim (pyStrO (Row.get r "Date")) = pyTrim cdate))
        (recordsOf ws) = none →
      save_tutor_memo ws sid cdate memo =
        ⟨ws, false, "Class not found in schedule", false⟩) ∧
    (∀ i, firstMatch (fun r =>
        decide (pyTrim (pyStrO (Row.get r "Student_ID")) = pyTrim sid ∧
          pyTrim (pyStrO (Row.get r "Date")) = pyTrim cdate))
        (recordsOf ws) = some i →
      ("Tutor_Memo" ∉ ws.headers →
        save_tutor_memo ws sid cdate memo =
          ⟨ws, false, "Tutor_Memo column not found in Schedule sheet", false⟩) ∧
      ("Tutor_Memo" ∈ ws.headers →
        (save_tutor_memo ws sid cdate memo).ok = true ∧
        (save_tutor_memo ws sid cdate memo).msg = "Memo saved successfully!" ∧
        (save_tutor_memo ws sid cdate memo).cleared = true ∧
        Row.get ((recordsOf (save_tutor_memo ws sid cdate memo).ws).getD i [])
          "Tutor_Memo" = some (Value.vs memo) ∧
        (∀ j, j ≠ i →
          (recordsOf (save_tutor_memo ws sid cdate memo).ws).getD j [] =
            (recordsOf ws).getD j []) ∧
        (∀ k, k ≠ "Tutor_Memo" →
          Row.get ((recordsOf (save_tutor_memo ws sid cdate memo).ws).getD i []) k =
            Row.get ((recordsOf ws).getD i []) k) ∧
        (∀ j, j < i →
          decide (pyTrim (pyStrO (Row.get ((recordsOf ws).getD j [])
              "Student_ID")) = pyTrim sid ∧
            pyTrim (pyStrO (Row.get ((recordsOf ws).getD j [])
              "Date")) = pyTrim cdate) = false))) := by
  constructor
  · intro h
    unfold save_tutor_memo
    rw [h]
  · intro i hi
    have hlen : i < (recordsOf ws).length := firstMatch_lt _ _ _ hi
    have hlen2 : i < ws.data.length := by rwa [recordsOf_length] at hlen
    constructor
    · intro hnot
      unfold save_tutor_memo
      rw [hi]
      dsimp only
      rw [if_neg hnot]
    · intro hmem
      have hres : save_tutor_memo ws sid cdate memo =
          ⟨ws.updateCell i (idxOf "Tutor_Memo" ws.headers) (Value.vs memo), true,
            "Memo saved successfully!", true⟩ := by
        unfold save_tutor_memo
        rw [hi]
        dsimp only
        rw [if_pos hmem]
      have hc : idxOf "Tutor_Memo" ws.headers < ws.headers.length :=
        idxOf_lt_length _ _ hmem
      have hrecs : recordsOf (save_tutor_memo ws sid cdate memo).ws =
          modifyAt (fun rec => rec.set (idxOf "Tutor_Memo" ws.headers)
            (ws.headers.getD (idxOf "Tutor_Memo" ws.headers) "", Value.vs memo)) i
            (recordsOf ws) := by
        rw [hres]
        exact recordsOf_updateCell ws i _ _ hc
      have hgetDhd : ws.headers.getD (idxOf "Tutor_Memo" ws.headers) "" =
          "Tutor_Memo" := getD_idxOf _ _ _ hmem
      have hkeys : ((recordsOf ws).getD i []).map Prod.fst = ws.headers :=
        keys_recordsOf ws hw i hlen2
      have hseti : (recordsOf (save_tutor_memo ws sid cdate memo).ws).getD i [] =
          ((recordsOf ws).getD i []).set (idxOf "Tutor_Memo" ws.headers)
            ("Tutor_Memo", Value.vs memo) := by
        rw [hrecs, modifyAt_getD_self _ _ _ _ hlen, hgetDhd]
      refine ⟨by rw [hres], by rw [hres], by rw [hres], ?_, ?_, ?_, ?_⟩
      · rw [hseti, get_set_record _ ws.headers hkeys _ hmem, if_pos rfl]
      · intro j hj
        rw [hrecs, modifyAt_getD_ne _ _ _ _ _ hj]
      · intro k hk
        rw [hseti, get_set_record _ ws.headers hkeys _ hmem, if_neg hk]
      · intro j hj
        exact firstMatch_before _ _ _ _ hi j hj

/-- Witness for C5: a concrete Schedule worksheet where the second row is
the first pair match; the memo lands in that row, the other row and the
other cells are untouched, and the earlier row fails the predicate. -/
theorem claim_C5_witness :
    (save_tutor_memo
      ⟨["Student_ID", "Date", "Tutor_Memo"],
        [[Value.vs "S2", Value.vs "01/01/2025", Value.vs ""],
         [Value.vs "S1", Value.vs "01/01/2025", Value.vs ""]]⟩
      "S1" "01/01/2025" "hello").ok = true ∧
    Row.get ((recordsOf (save_tutor_memo
      ⟨["Student_ID", "Date", "Tutor_Memo"],
        [[Value.vs "S2", Value.vs "01/01/2025", Value.vs ""],
         [Value.vs "S1", Value.vs "01/01/2025", Value.vs ""]]⟩
      "S1" "01/01/2025" "hello").ws).getD 1 []) "Tutor_Memo" =
      some (Value.vs "hello") ∧
    (recordsOf (save_tutor_memo
      ⟨["Student_ID", "Date", "Tutor_Memo"],
        [[Value.vs "S2", Value.vs "01/01/2025", Value.vs ""],
         [Value.vs "S1", Value.vs "01/01/2025", Value.vs ""]]⟩
      "S1" "01/01/2025" "hello").ws).getD 0 [] =
      (recordsOf (⟨["Student_ID", "Date", "Tutor_Memo"],
        [[Value.vs "S2", Value.vs "01/01/2025", Value.vs ""],
         [Value.vs "S1", Value.vs "01/01/2025", Value.vs ""]]⟩ : Worksheet)).getD 0 [] ∧
    Row.get ((recordsOf (save_tutor_memo
      ⟨["Student_ID", "Date", "Tutor_Memo"],
        [[Value.vs "S2", Value.vs "01/01/2025", Value.vs ""],
         [Value.vs "S1", Value.vs "01/01/2025", Value.vs ""]]⟩
      "S1" "01/01/2025" "hello").ws).getD 1 []) "Date" =
      Row.get ((recordsOf (⟨["Student_ID", "Date", "Tutor_Memo"],
        [[Value.vs "S2", Value.vs "01/01/2025", Value.vs ""],
         [Value.vs "S1", Value.vs "01/01/2025", Value.vs ""]]⟩ : Worksheet)).getD 1 [])
        "Date" ∧
    decide (pyTrim (pyStrO (Row.get ((recordsOf
      (⟨["Student_ID", "Date", "Tutor_Memo"],
        [[Value.vs "S2", Value.vs "01/01/2025", Value.vs ""],
         [Value.vs "S1", Value.vs "01/01/2025", Value.vs ""]]⟩ : Worksheet)).getD 0 [])
        "Student_ID")) = pyTrim "S1" ∧
      pyTrim (pyStrO (Row.get ((recordsOf
      (⟨["Student_ID", "Date", "Tutor_Memo"],
        [[Value.vs "S2", Value.vs "01/01/2025", Value.vs ""],
         [Value.vs "S1", Value.vs "01/01/2025", Value.vs ""]]⟩ : Worksheet)).getD 0 [])
        "Date")) = pyTrim "01/01/2025") = false := by
  have A := ((claim_C5_save_memo
    ⟨["Student_ID", "Date", "Tutor_Memo"],
      [[Value.vs "S2", Value.vs "01/01/2025", Value.vs ""],
       [Value.vs "S1", Value.vs "01/01/2025", Value.vs ""]]⟩
    "S1" "01/01/2025" "hello" (by decide)).2 1 (by decide)).2 (by decide)
  exact ⟨A.1, A.2.2.2.1, A.2.2.2.2.1 0 (by decide),
    A.2.2.2.2.2.1 "Date" (by decide), A.2.2.2.2.2.2 0 (by decide)⟩

/-- C8 counterexample: at a concrete Schedule row whose Student_ID has no
entry in a nonempty Students table, the attached display name is the
missing value NaN, not the raw Student_ID the claim promises. -/
theorem claim_C8_counterexample :
    (get_tutor_classes
      (some ⟨["Tutor_ID", "Student_ID"],
        [[("Tutor_ID", Value.vs "T1"), ("Student_ID", Value.vs "S9")]]⟩)
      (some ⟨["Student_ID", "Student_Name"],
        [[("Student_ID", Value.vs "S1"), ("Student_Name", Value.vs "Alice")]]⟩)
      "T1").length = 1 ∧
    Row.get ((get_tutor_classes
      (some ⟨["Tutor_ID", "Student_ID"],
        [[("Tutor_ID", Value.vs "T1"), ("Student_ID", Value.vs "S9")]]⟩)
      (some ⟨["Student_ID", "Student_Name"],
        [[("Student_ID", Value.vs "S1"), ("Student_Name", Value.vs "Alice")]]⟩)
      "T1").getD 0 []) "Student_ID" = some (Value.vs "S9") ∧
    display_name ((get_tutor_classes
      (some ⟨["Tutor_ID", "Student_ID"],
        [[("Tutor_ID", Value.vs "T1"), ("Student_ID", Value.vs "S9")]]⟩)
      (some ⟨["Student_ID", "Student_Name"],
        [[("Student_ID", Value.vs "S1"), ("Student_Name", Value.vs "Alice")]]⟩)
      "T1").getD 0 []) = Value.nan ∧
    display_name ((get_tutor_classes
      (some ⟨["Tutor_ID", "Student_ID"],
        [[("Tutor_ID", Value.vs "T1"), ("Student_ID", Value.vs "S9")]]⟩)
      (some ⟨["Student_ID", "Student_Name"],
        [[("Student_ID", Value.vs "S1"), ("Student_Name", Value.vs "Alice")]]⟩)
      "T1").getD 0 []) ≠ Value.vs "S9" := by
  refine ⟨by decide, by decide, by decide, by decide⟩

/-- C8 (amended): classesForTutor returns exactly the Schedule rows passing
the trimmed Tutor_ID filter, each extended by a Student_Name column mapped
from a nonempty Students table by trimmed Student_ID (no row dropped); a
row with no Students entry carries the missing value NaN as its attached
name, and the display layer then shows NaN rather than the raw Student_ID;
only when the Students table is missing or empty is no name column attached
at all, and only then does the display fall back to the raw Student_ID. -/
theorem claim_C8_amended (s st : Table) (tid : String)
    (hs : s.rows ≠ []) (hst : st.rows ≠ []) :
    get_tutor_classes (some s) (some st) tid =
      (s.rows.filter (fun r =>
        decide (pyTrim (dfStr r "Tutor_ID") = pyTrim tid))).map
        (fun r => setCol r "Student_Name"
          (match dictGet (st.rows.map (fun q =>
              (pyTrim (dfStr q "Student_ID"), pyTrim (dfStr q "Student_Name"))))
              (pyTrim (dfStr r "Student_ID")) with
           | some n => Value.vs n
           | none => Value.nan)) ∧
    (get_tutor_classes (some s) (some st) tid).length =
      (s.rows.filter (fun r =>
        decide (pyTrim (dfStr r "Tutor_ID") = pyTrim tid))).length ∧
    (∀ r, r ∈ s.rows.filter (fun r =>
        decide (pyTrim (dfStr r "Tutor_ID") = pyTrim tid)) →
      dictGet (st.rows.map (fun q =>
        (pyTrim (dfStr q "Student_ID"), pyTrim (dfStr q "Student_Name"))))
        (pyTrim (dfStr r "Student_ID")) = none →
      setCol r "Student_Name" Value.nan ∈ get_tutor_classes (some s) (some st) tid ∧
      display_name (setCol r "Student_Name" Value.nan) = Value.nan) ∧
    get_tutor_classes (some s) none tid =
      s.rows.filter (fun r => decide (pyTrim (dfStr r "Tutor_ID") = pyTrim tid)) ∧
    (∀ r : Row, Row.get r "Student_Name" = none →
      ∀ v, Row.get r "Student_ID" = some v → display_name r = v) := by
  have hout : get_tutor_classes (some s) (some st) tid =
      (s.rows.filter (fun r =>
        decide (pyTrim (dfStr r "Tutor_ID") = pyTrim tid))).map
        (fun r => setCol r "Student_Name"
          (match dictGet (st.rows.map (fun q =>
              (pyTrim (dfStr q "Student_ID"), pyTrim (dfStr q "Student_Name"))))
              (pyTrim (dfStr r "Student_ID")) with
           | some n => Value.vs n
           | none => Value.nan)) := by
    simp only [get_tutor_classes]
    rw [if_neg hs, if_neg hst]
  refine ⟨hout, by rw [hout, List.length_map], ?_, ?_, ?_⟩
  · intro r hr hnone
    constructor
    · rw [hout]
      have h2 : setCol r "Student_Name"
          (match dictGet (st.rows.map (fun q =>
              (pyTrim (dfStr q "Student_ID"), pyTrim (dfStr q "Student_Name"))))
              (pyTrim (dfStr r "Student_ID")) with
           | some n => Value.vs n
           | none => Value.nan) = setCol r "Student_Name" Value.nan := by
        rw [hnone]
      exact h2 ▸ List.mem_map_of_mem _ hr
    · unfold display_name
      rw [get_setCol_self]
  · simp only [get_tutor_classes]
    rw [if_neg hs]
  · intro r hnone v hv
    unfold display_name
    rw [hnone, hv]
    rfl

/-- Witness for C8 at concrete Schedule and Students tables. -/
theorem claim_C8_witness :
    setCol [("Tutor_ID", Value.vs "T1"), ("Student_ID", Value.vs "S9")]
      "Student_Name" Value.nan ∈
      get_tutor_classes
        (some ⟨["Tutor_ID", "Student_ID"],
          [[("Tutor_ID", Value.vs "T1"), ("Student_ID", Value.vs "S9")]]⟩)
        (some ⟨["Student_ID", "Student_Name"],
          [[("Student_ID", Value.vs "S1"), ("Student_Name", Value.vs "Alice")]]⟩)
        "T1" ∧
    display_name (setCol [("Tutor_ID", Value.vs "T1"),
      ("Student_ID", Value.vs "S9")] "Student_Name" Value.nan) = Value.nan ∧
    get_tutor_classes
      (some ⟨["Tutor_ID", "Student_ID"],
        [[("Tutor_ID", Value.vs "T1"), ("Student_ID", Value.vs "S9")]]⟩)
      none "T1" =
      [[("Tutor_ID", Value.vs "T1"), ("Student_ID", Value.vs "S9")]] ∧
    display_name [("Tutor_ID", Value.vs "T1"), ("Student_ID", Value.vs "S9")] =
      Value.vs "S9" := by
  have A := claim_C8_amended
    ⟨["Tutor_ID", "Student_ID"],
      [[("Tutor_ID", Value.vs "T1"), ("Student_ID", Value.vs "S9")]]⟩
    ⟨["Student_ID", "Student_Name"],
      [[("Student_ID", Value.vs "S1"), ("Student_Name", Value.vs "Alice")]]⟩
    "T1" (by decide) (by decide)
  have B := A.2.2.1 [("Tutor_ID", Value.vs "T1"), ("Student_ID", Value.vs "S9")]
    (by decide) (by decide)
  exact ⟨B.1, B.2, A.2.2.2.1,
    A.2.2.2.2 [("Tutor_ID", Value.vs "T1"), ("Student_ID", Value.vs "S9")]
      (by decide) (Value.vs "S9") (by decide)⟩

theorem completedCount_plan (p c : Table) (sid : String) :
    completedCount (get_student_plan (some p) (some c) sid) =
      p.rows.countP (fun r =>
        decide (Row.get r "Status" = some (Value.vs "Completed")) &&
        decide (pyTrim (dfStr r "Student_ID") = pyTrim sid)) := by
  by_cases hc : c.rows = []
  · have hout : get_student_plan (some p) (some c) sid =
        p.rows.filter (fun r =>
          decide (pyTrim (dfStr r "Student_ID") = pyTrim sid)) := by
      simp only [get_student_plan]
      rw [if_pos hc]
    rw [hout]
    unfold completedCount
    exact length_filter_filter _ _ _
  · have hout : get_student_plan (some p) (some c) sid =
        (p.rows.filter (fun r =>
          decide (pyTrim (dfStr r "Student_ID") = pyTrim sid))).map
          (addCurriculumCols
            (c.rows.map (fun cr =>
              (pyTrim (dfStr cr "Topic_ID"), pyTrim (dfStr cr "Sub_Unit_Name"))))
            (c.rows.map (fun cr =>
              (pyTrim (dfStr cr "Topic_ID"), pyTrim (dfStr cr "Unit_Name"))))
            (c.rows.map (fun cr =>
              (pyTrim (dfStr cr "Topic_ID"), pyTrim (dfStr cr "Textbook_Ref"))))) := by
      simp only [get_student_plan]
      rw [if_neg hc]
    rw [hout]
    unfold completedCount
    rw [length_filter_map]
    have hstatus : ∀ r : Row,
        Row.get (addCurriculumCols
          (c.rows.map (fun cr =>
            (pyTrim (dfStr cr "Topic_ID"), pyTrim (dfStr cr "Sub_Unit_Name"))))
          (c.rows.map (fun cr =>
            (pyTrim (dfStr cr "Topic_ID"), pyTrim (dfStr cr "Unit_Name"))))
          (c.rows.map (fun cr =>
            (pyTrim (dfStr cr "Topic_ID"), pyTrim (dfStr cr "Textbook_Ref"))))
          r) "Status" = Row.get r "Status" := by
      intro r
      simp only [addCurriculumCols]
      rw [get_setCol_ne _ _ _ _ (by decide), get_setCol_ne _ _ _ _ (by decide),
        get_setCol_ne _ _ _ _ (by decide)]
    have hcong : (fun a : Row =>
        decide (Row.get (addCurriculumCols
          (c.rows.map (fun cr =>
            (pyTrim (dfStr cr "Topic_ID"), pyTrim (dfStr cr "Sub_Unit_Name"))))
          (c.rows.map (fun cr =>
            (pyTrim (dfStr cr "Topic_ID"), pyTrim (dfStr cr "Unit_Name"))))
          (c.rows.map (fun cr =>
            (pyTrim (dfStr cr "Topic_ID"), pyTrim (dfStr cr "Textbook_Ref"))))
          a) "Status" = some (Value.vs "Completed"))) =
        (fun a : Row =>
          decide (Row.get a "Status" = some (Value.vs "Completed"))) := by
      funext a
      rw [hstatus a]
    rw [hcong]
    exact length_filter_filter _ _ _

theorem get_set3_record (z : Row) (hs : List String) (hk : z.map Prod.fst = hs)
    (n1 n2 n3 : String) (h1 : n1 ∈ hs) (h2 : n2 ∈ hs) (h3 : n3 ∈ hs)
    (v1 v2 v3 : Value) (k : String) :
    Row.get (((z.set (idxOf n1 hs) (n1, v1)).set (idxOf n2 hs) (n2, v2)).set
      (idxOf n3 hs) (n3, v3)) k =
      if k = n3 then some v3
      else if k = n2 then some v2
      else if k = n1 then some v1
      else Row.get z k := by
  have hk1 := keys_set_record z hs hk n1 h1 v1
  have hk2 := keys_set_record _ hs hk1 n2 h2 v2
  rw [get_set_record _ hs hk2 n3 h3 v3 k]
  by_cases e3 : k = n3
  · rw [if_pos e3, if_pos e3]
  · rw [if_neg e3, if_neg e3, get_set_record _ hs hk1 n2 h2 v2 k]
    by_cases e2 : k = n2
    · rw [if_pos e2, if_pos e2]
    · rw [if_neg e2, if_neg e2, get_set_record z hs hk n1 h1 v1 k]

/-- C1 (amended): when a Student_Plan record matches the given plan id at
first index i, the three target columns exist, the headers are clean, and
the matched row's Status is not already Completed, mark_topic_complete
succeeds, writes exactly the three cells Status, Completed_By and
Date_Completed of that row (Status becomes Completed, Completed_By the
tutor id, Date_Completed today rendered day/month/year), leaves every other
row and every other cell of that row unchanged, clears the cache, and a
fresh planForStudent read for that row's student shows completedCount
incremented by exactly one. -/
theorem claim_C1_amended (ws : Worksheet) (plan_id tutor_id : String)
    (today : PDate) (cur : Table) (i : Nat) (sid : String)
    (hw : ∀ r ∈ ws.data, r.length = ws.headers.length)
    (hh : ∀ h ∈ ws.headers, pyTrim h = h)
    (hcs : "Status" ∈ ws.headers) (hcb : "Completed_By" ∈ ws.headers)
    (hcd : "Date_Completed" ∈ ws.headers)
    (hi : firstMatch (fun r => decide (pyStrO (Row.get r "Plan_ID") = plan_id))
      (recordsOf ws) = some i)
    (hst : Row.get ((recordsOf ws).getD i []) "Status" ≠
      some (Value.vs "Completed"))
    (hsid : pyTrim (dfStr ((recordsOf ws).getD i []) "Student_ID") = pyTrim sid) :
    (mark_topic_complete ws plan_id tutor_id today).ok = true ∧
    (mark_topic_complete ws plan_id tutor_id today).msg =
      "Topic marked as completed!" ∧
    (mark_topic_complete ws plan_id tutor_id today).cleared = true ∧
    Row.get ((recordsOf (mark_topic_complete ws plan_id tutor_id today).ws).getD
      i []) "Status" = some (Value.vs "Completed") ∧
    Row.get ((recordsOf (mark_topic_complete ws plan_id tutor_id today).ws).getD
      i []) "Completed_By" = some (Value.vs tutor_id) ∧
    Row.get ((recordsOf (mark_topic_complete ws plan_id tutor_id today).ws).getD
      i []) "Date_Completed" = some (Value.vs (strftimeDMY today)) ∧
    (∀ j, j ≠ i →
      (recordsOf (mark_topic_complete ws plan_id tutor_id today).ws).getD j [] =
        (recordsOf ws).getD j []) ∧
    (∀ k, k ≠ "Status" → k ≠ "Completed_By" → k ≠ "Date_Completed" →
      Row.get ((recordsOf (mark_topic_complete ws plan_id tutor_id today).ws).getD
        i []) k = Row.get ((recordsOf ws).getD i []) k) ∧
    completedCount (get_student_plan
      (some (tableOf (mark_topic_complete ws plan_id tutor_id today).ws))
      (some cur) sid) =
      completedCount (get_student_plan (some (tableOf ws)) (some cur) sid) + 1 := by
  have hlen : i < (recordsOf ws).length := firstMatch_lt _ _ _ hi
  have hlen2 : i < ws.data.length := by rwa [recordsOf_length] at hlen
  have hkeys : ((recordsOf ws).getD i []).map Prod.fst = ws.headers :=
    keys_recordsOf ws hw i hlen2
  have hres : mark_topic_complete ws plan_id tutor_id today =
      ⟨((ws.updateCell i (idxOf "Status" ws.headers)
          (Value.vs "Completed")).updateCell
        i (idxOf "Completed_By" ws.headers) (Value.vs tutor_id)).updateCell
        i (idxOf "Date_Completed" ws.headers) (Value.vs (strftimeDMY today)),
        true, "Topic marked as completed!", true⟩ := by
    unfold mark_topic_complete
    rw [hi]
    dsimp only
    rw [if_pos ⟨hcs, hcb, hcd⟩]
  have step : ∀ (w : Worksheet) (n : String) (v : Value),
      w.headers = ws.headers → n ∈ ws.headers →
      recordsOf (w.updateCell i (idxOf n ws.headers) v) =
        modifyAt (fun z => z.set (idxOf n ws.headers) (n, v)) i (recordsOf w) := by
    intro w n v hwh hn
    rw [recordsOf_updateCell w i _ v
      (by rw [hwh]; exact idxOf_lt_length _ _ hn)]
    rw [hwh]
    simp only [getD_idxOf n ws.headers "" hn]
  have hrecsT : recordsOf (((ws.updateCell i (idxOf "Status" ws.headers)
        (Value.vs "Completed")).updateCell
      i (idxOf "Completed_By" ws.headers) (Value.vs tutor_id)).updateCell
      i (idxOf "Date_Completed" ws.headers) (Value.vs (strftimeDMY today))) =
      modifyAt (fun z => ((z.set (idxOf "Status" ws.headers)
        ("Status", Value.vs "Completed")).set
        (idxOf "Completed_By" ws.headers) ("Completed_By", Value.vs tutor_id)).set
        (idxOf "Date_Completed" ws.headers)
        ("Date_Completed", Value.vs (strftimeDMY today))) i (recordsOf ws) := by
    rw [step ((ws.updateCell i (idxOf "Status" ws.headers)
        (Value.vs "Completed")).updateCell
        i (idxOf "Completed_By" ws.headers) (Value.vs tutor_id))
        "Date_Completed" (Value.vs (strftimeDMY today)) rfl hcd,
      step (ws.updateCell i (idxOf "Status" ws.headers) (Value.vs "Completed"))
        "Completed_By" (Value.vs tutor_id) rfl hcb,
      step ws "Status" (Value.vs "Completed") rfl hcs,
      modifyAt_modifyAt, modifyAt_modifyAt]
  have hrecs : recordsOf (mark_topic_complete ws plan_id tutor_id today).ws =
      modifyAt (fun z => ((z.set (idxOf "Status" ws.headers)
        ("Status", Value.vs "Completed")).set
        (idxOf "Completed_By" ws.headers) ("Completed_By", Value.vs tutor_id)).set
        (idxOf "Date_Completed" ws.headers)
        ("Date_Completed", Value.vs (strftimeDMY today))) i (recordsOf ws) := by
    rw [hres]
    exact hrecsT
  have hseti : (recordsOf (mark_topic_complete ws plan_id tutor_id today).ws).getD
      i [] =
      ((((recordsOf ws).getD i []).set (idxOf "Status" ws.headers)
        ("Status", Value.vs "Completed")).set
        (idxOf "Completed_By" ws.headers) ("Completed_By", Value.vs tutor_id)).set
        (idxOf "Date_Completed" ws.headers)
        ("Date_Completed", Value.vs (strftimeDMY today)) := by
    rw [hrecs, modifyAt_getD_self _ _ _ _ hlen]
  have hget := fun k => get_set3_record ((recordsOf ws).getD i []) ws.headers
    hkeys "Status" "Completed_By" "Date_Completed" hcs hcb hcd
    (Value.vs "Completed") (Value.vs tutor_id) (Value.vs (strftimeDMY today)) k
  have hgetStatus : Row.get ((recordsOf
      (mark_topic_complete ws plan_id tutor_id today).ws).getD i []) "Status" =
      some (Value.vs "Completed") := by
    rw [hseti, hget "Status", if_neg (by decide), if_neg (by decide), if_pos rfl]
  have hgetSid : Row.get ((recordsOf
      (mark_topic_complete ws plan_id tutor_id today).ws).getD i []) "Student_ID" =
      Row.get ((recordsOf ws).getD i []) "Student_ID" := by
    rw [hseti, hget "Student_ID", if_neg (by decide), if_neg (by decide),
      if_neg (by decide)]
  refine ⟨by rw [hres], by rw [hres], by rw [hres], hgetStatus, ?_, ?_, ?_, ?_, ?_⟩
  · rw [hseti, hget "Completed_By", if_neg (by decide), if_pos rfl]
  · rw [hseti, hget "Date_Completed", if_pos rfl]
  · intro j hj
    rw [hrecs, modifyAt_getD_ne _ _ _ _ _ hj]
  · intro k hk1 hk2 hk3
    rw [hseti, hget k, if_neg hk3, if_neg hk2, if_neg hk1]
  · rw [hres]
    dsimp only
    rw [tableOf_of_trimmed (((ws.updateCell i (idxOf "Status" ws.headers)
        (Value.vs "Completed")).updateCell
        i (idxOf "Completed_By" ws.headers) (Value.vs tutor_id)).updateCell
        i (idxOf "Date_Completed" ws.headers) (Value.vs (strftimeDMY today))) hh,
      tableOf_of_trimmed ws hh, completedCount_plan, completedCount_plan]
    dsimp only
    rw [hrecsT]
    refine countP_modifyAt _ _ (recordsOf ws) i [] hlen ?_ ?_
    · show (decide (Row.get ((recordsOf ws).getD i []) "Status" =
          some (Value.vs "Completed")) &&
        decide (pyTrim (dfStr ((recordsOf ws).getD i []) "Student_ID") =
          pyTrim sid)) = false
      rw [decide_eq_false hst, Bool.false_and]
    · show (decide (Row.get (((((recordsOf ws).getD i []).set
          (idxOf "Status" ws.headers) ("Status", Value.vs "Completed")).set
          (idxOf "Completed_By" ws.headers)
          ("Completed_By", Value.vs tutor_id)).set
          (idxOf "Date_Completed" ws.headers)
          ("Date_Completed", Value.vs (strftimeDMY today))) "Status" =
            some (Value.vs "Completed")) &&
        decide (pyTrim (dfStr (((((recordsOf ws).getD i []).set
          (idxOf "Status" ws.headers) ("Status", Value.vs "Completed")).set
          (idxOf "Completed_By" ws.headers)
          ("Completed_By", Value.vs tutor_id)).set
          (idxOf "Date_Completed" ws.headers)
          ("Date_Completed", Value.vs (strftimeDMY today))) "Student_ID") =
          pyTrim sid)) = true
      have e1 : Row.get (((((recordsOf ws).getD i []).set
          (idxOf "Status" ws.headers) ("Status", Value.vs "Completed")).set
          (idxOf "Completed_By" ws.headers)
          ("Completed_By", Value.vs tutor_id)).set
          (idxOf "Date_Completed" ws.headers)
          ("Date_Completed", Value.vs (strftimeDMY today))) "Status" =
          some (Value.vs "Completed") := by
        rw [hget "Status", if_neg (by decide), if_neg (by decide), if_pos rfl]
      have e2 : Row.get (((((recordsOf ws).getD i []).set
          (idxOf "Status" ws.headers) ("Status", Value.vs "Completed")).set
          (idxOf "Completed_By" ws.headers)
          ("Completed_By", Value.vs tutor_id)).set
          (idxOf "Date_Completed" ws.headers)
          ("Date_Completed", Value.vs (strftimeDMY today))) "Student_ID" =
          Row.get ((recordsOf ws).getD i []) "Student_ID" := by
        rw [hget "Student_ID", if_neg (by decide), if_neg (by decide),
          if_neg (by decide)]
      rw [decide_eq_true e1]
      unfold dfStr
      rw [e2]
      have e3 : pyTrim (dfStr ((recordsOf ws).getD i []) "Student_ID") =
          pyTrim sid := hsid
      unfold dfStr at e3
      rw [decide_eq_true e3, Bool.true_and]

/-- C1 counterexample: at a concrete Student_Plan whose matching row already
has Status Completed, mark_topic_complete still succeeds and writes, but the
subsequent planForStudent completedCount stays at one instead of being
incremented by one, refuting the claim as universally stated. -/
theorem claim_C1_counterexample :
    (mark_topic_complete
      ⟨["Plan_ID", "Status", "Completed_By", "Date_Completed", "Student_ID"],
        [[Value.vs "P12", Value.vs "Completed", Value.vs "T0",
          Value.vs "01/01/2024", Value.vs "S1"]]⟩
      "P12" "T1" ⟨2026, 10, 12⟩).ok = true ∧
    completedCount (get_student_plan
      (some (tableOf (mark_topic_complete
        ⟨["Plan_ID", "Status", "Completed_By", "Date_Completed", "Student_ID"],
          [[Value.vs "P12", Value.vs "Completed", Value.vs "T0",
            Value.vs "01/01/2024", Value.vs "S1"]]⟩
        "P12" "T1" ⟨2026, 10, 12⟩).ws))
      (some ⟨["Topic_ID", "Sub_Unit_Name", "Unit_Name", "Textbook_Ref"], []⟩)
      "S1") = 1 ∧
    completedCount (get_student_plan
      (some (tableOf (⟨["Plan_ID", "Status", "Completed_By", "Date_Completed",
          "Student_ID"],
        [[Value.vs "P12", Value.vs "Completed", Value.vs "T0",
          Value.vs "01/01/2024", Value.vs "S1"]]⟩ : Worksheet)))
      (some ⟨["Topic_ID", "Sub_Unit_Name", "Unit_Name", "Textbook_Ref"], []⟩)
      "S1") = 1 ∧
    ¬ (completedCount (get_student_plan
      (some (tableOf (mark_topic_complete
        ⟨["Plan_ID", "Status", "Completed_By", "Date_Completed", "Student_ID"],
          [[Value.vs "P12", Value.vs "Completed", Value.vs "T0",
            Value.vs "01/01/2024", Value.vs "S1"]]⟩
        "P12" "T1" ⟨2026, 10, 12⟩).ws))
      (some ⟨["Topic_ID", "Sub_Unit_Name", "Unit_Name", "Textbook_Ref"], []⟩)
      "S1") =
      completedCount (get_student_plan
        (some (tableOf (⟨["Plan_ID", "Status", "Completed_By", "Date_Completed",
            "Student_ID"],
          [[Value.vs "P12", Value.vs "Completed", Value.vs "T0",
            Value.vs "01/01/2024", Value.vs "S1"]]⟩ : Worksheet)))
        (some ⟨["Topic_ID", "Sub_Unit_Name", "Unit_Name", "Textbook_Ref"], []⟩)
        "S1") + 1) := by
  refine ⟨by decide, by decide, by decide, by decide⟩

/-- Witness for C1 at a concrete pending plan row. -/
theorem claim_C1_witness :
    (mark_topic_complete
      ⟨["Plan_ID", "Status", "Completed_By", "Date_Completed", "Student_ID"],
        [[Value.vs "P12", Value.vs "Pending", Value.vs "", Value.vs "",
          Value.vs "S1"]]⟩
      "P12" "T1" ⟨2026, 10, 12⟩).ok = true ∧
    Row.get ((recordsOf (mark_topic_complete
      ⟨["Plan_ID", "Status", "Completed_By", "Date_Completed", "Student_ID"],
        [[Value.vs "P12", Value.vs "Pending", Value.vs "", Value.vs "",
          Value.vs "S1"]]⟩
      "P12" "T1" ⟨2026, 10, 12⟩).ws).getD 0 []) "Status" =
      some (Value.vs "Completed") ∧
    Row.get ((recordsOf (mark_topic_complete
      ⟨["Plan_ID", "Status", "Completed_By", "Date_Completed", "Student_ID"],
        [[Value.vs "P12", Value.vs "Pending", Value.vs "", Value.vs "",
          Value.vs "S1"]]⟩
      "P12" "T1" ⟨2026, 10, 12⟩).ws).getD 0 []) "Completed_By" =
      some (Value.vs "T1") ∧
    Row.get ((recordsOf (mark_topic_complete
      ⟨["Plan_ID", "Status", "Completed_By", "Date_Completed", "Student_ID"],
        [[Value.vs "P12", Value.vs "Pending", Value.vs "", Value.vs "",
          Value.vs "S1"]]⟩
      "P12" "T1" ⟨2026, 10, 12⟩).ws).getD 0 []) "Date_Completed" =
      some (Value.vs (strftimeDMY ⟨2026, 10, 12⟩)) ∧
    completedCount (get_student_plan
      (some (tableOf (mark_topic_complete
        ⟨["Plan_ID", "Status", "Completed_By", "Date_Completed", "Student_ID"],
          [[Value.vs "P12", Value.vs "Pending", Value.vs "", Value.vs "",
            Value.vs "S1"]]⟩
        "P12" "T1" ⟨2026, 10, 12⟩).ws))
      (some ⟨["Topic_ID", "Sub_Unit_Name", "Unit_Name", "Textbook_Ref"], []⟩)
      "S1") =
      completedCount (get_student_plan
        (some (tableOf (⟨["Plan_ID", "Status", "Completed_By", "Date_Completed",
            "Student_ID"],
          [[Value.vs "P12", Value.vs "Pending", Value.vs "", Value.vs "",
            Value.vs "S1"]]⟩ : Worksheet)))
        (some ⟨["Topic_ID", "Sub_Unit_Name", "Unit_Name", "Textbook_Ref"], []⟩)
        "S1") + 1 := by
  have A := claim_C1_amended
    ⟨["Plan_ID", "Status", "Completed_By", "Date_Completed", "Student_ID"],
      [[Value.vs "P12", Value.vs "Pending", Value.vs "", Value.vs "",
        Value.vs "S1"]]⟩
    "P12" "T1" ⟨2026, 10, 12⟩
    ⟨["Topic_ID", "Sub_Unit_Name", "Unit_Name", "Textbook_Ref"], []⟩
    0 "S1"
    (by decide) (by decide) (by decide) (by decide) (by decide)
    (by decide) (by decide) (by decide)
  exact ⟨A.1, A.2.2.2.1, A.2.2.2.2.1, A.2.2.2.2.2.1, A.2.2.2.2.2.2.2.2⟩

end TutorApp
